import Mathlib

/-!
# iresearch: segment reader / segment writer / directory utilities

A shallow embedding of parts of `core/index/segment_reader.cpp`,
`core/index/segment_writer.cpp`, `core/search/levenshtein_filter.cpp` and
`core/utils/directory_utils.cpp`, with theorems about them.

Conventions of the embedding:
* `doc_id_t` is an unsigned 32-bit integer: a `Nat` kept below `2^32`, with
  explicit `% 2^32` where the C++ narrows or increments;
* `uint64_t` values are `Nat` with explicit `% 2^64`;
* `document_mask` and `file_set` (unordered sets) are `Finset`s;
* `type_limits<type_t::doc_id_t>::min()` is declared in a header that is not
  part of the sources at hand, so it is the parameter `minDoc` of every
  definition that uses it.
-/

namespace iresearch

/-! ## Machine integers -/

/-- Number of values of `doc_id_t` (a 32-bit unsigned integer). -/
def DOC_ID_MOD : Nat := 4294967296

/-- Number of values of `uint64_t`. -/
def U64_MOD : Nat := 18446744073709551616

/-- Modelled from the spec: the value of `type_limits<type_t::doc_id_t>::invalid()`,
whose header is missing ("`0` is reserved as invalid"). -/
def doc_limits_invalid : Nat := 0

/-- Modelled from the spec: the value of `type_limits<type_t::doc_id_t>::eof()`,
whose header is missing ("`MAX_U32` as eof"). -/
def doc_limits_eof : Nat := 4294967295

/-! ## `masked_docs_iterator` (segment_reader.cpp, lines 47-87) -/

/-- State of a `masked_docs_iterator`: the four data members of the class. -/
structure masked_docs_iterator where
  current_ : Nat
  docs_mask_ : Finset Nat
  end_ : Nat
  next_ : Nat
deriving DecidableEq

namespace masked_docs_iterator

/-- The constructor: `current_` is `invalid()`, `next_` is `begin`. -/
def mk_iterator (begin_ end_ : Nat) (docs_mask : Finset Nat) : masked_docs_iterator :=
  { current_ := doc_limits_invalid, docs_mask_ := docs_mask, end_ := end_, next_ := begin_ }

/-- The `while (next_ < end_)` loop of `next()`. The first argument bounds the
number of iterations; `next` below passes `end_ - next_`, which is the exact
number of iterations left when `end_` is a 32-bit value (the increment cannot
wrap while `next_ < end_`). -/
def nextLoop : Nat → masked_docs_iterator → Bool × masked_docs_iterator
  | 0, it => (false, { it with current_ := doc_limits_eof })
  | fuel + 1, it =>
    if it.next_ < it.end_ then
      -- current_ = next_++;
      let it1 := { it with current_ := it.next_, next_ := (it.next_ + 1) % DOC_ID_MOD }
      if it1.current_ ∈ it1.docs_mask_ then nextLoop fuel it1 else (true, it1)
    else (false, { it with current_ := doc_limits_eof })

/-- Method `masked_docs_iterator::next()`: the returned flag and the iterator
afterwards. -/
def next (it : masked_docs_iterator) : Bool × masked_docs_iterator :=
  nextLoop (it.end_ - it.next_) it

/-- Method `masked_docs_iterator::value()`. -/
def value (it : masked_docs_iterator) : Nat := it.current_

/-- The values observed by a caller that calls `next()` at most `calls` times,
reads `value()` after each call that returned true and stops at the first call
that returns false. -/
def observed : Nat → masked_docs_iterator → List Nat
  | 0, _ => []
  | calls + 1, it =>
    match it.next with
    | (true, it1) => it1.value :: observed calls it1
    | (false, _) => []

end masked_docs_iterator

/-- Method `segment_reader_impl::docs_iterator()` (lines 336-343): the iterator
over `[min(), doc_id_t(min() + docs_count_))`; `docs_count_` is a `uint64_t`, the
sum is computed in 64 bits and then narrowed to `doc_id_t`. -/
def docs_iterator (minDoc docs_count : Nat) (docs_mask : Finset Nat) : masked_docs_iterator :=
  masked_docs_iterator.mk_iterator minDoc
    (((minDoc + docs_count) % U64_MOD) % DOC_ID_MOD) docs_mask

/-- What the specification promises of `docs_iterator()`: the ids of
`[minDoc, minDoc + docs_count)` that are not in the mask, ascending. -/
def live_doc_ids (minDoc docs_count : Nat) (docs_mask : Finset Nat) : List Nat :=
  (List.range' minDoc docs_count).filter (fun d => decide (d ∉ docs_mask))

/-! ## `tracking_directory` (directory_utils.cpp, lines 219-354) -/

/-- What the wrapped directory's `create` does: hands back a stream, hands back
`nullptr`, or an exception is caught inside `tracking_directory::create`. -/
inductive create_result where
  | stream
  | null
  | threw
deriving DecidableEq, Repr

/-- State of a `tracking_directory`: the tracked file set `files_` and the
`track_open_` flag (the wrapped directory is outside the model). -/
structure tracking_directory where
  files_ : Finset String
  track_open_ : Bool
deriving DecidableEq

namespace tracking_directory

/-- Method `tracking_directory::create` (lines 238-256): whether a stream is
returned, and the directory afterwards. The name is tracked before the wrapped
directory is asked; it is erased again only on the exception path. -/
def create (d : tracking_directory) (name : String) (r : create_result) :
    Bool × tracking_directory :=
  match r with
  | .stream => (true, { d with files_ := insert name d.files_ })
  | .null => (false, { d with files_ := insert name d.files_ })
  | .threw => (false, { d with files_ := (insert name d.files_).erase name })

/-- Method `tracking_directory::swap_tracked(file_set&)` (lines 336-346): the
returned flag, the directory and the caller's set afterwards. `swap_throws`
says whether `files_.swap(other)` throws; both sets are then taken to be left
as they were. -/
def swap_tracked (d : tracking_directory) (swap_throws : Bool) (other : Finset String) :
    Bool × tracking_directory × Finset String :=
  if swap_throws then (false, d, other)
  else (true, { d with files_ := other }, d.files_)

/-- Method `tracking_directory::swap_tracked(tracking_directory&)`
(lines 348-350): `swap_tracked(other.files_)`. -/
def swap_tracked_dir (d : tracking_directory) (swap_throws : Bool) (other : tracking_directory) :
    Bool × tracking_directory × tracking_directory :=
  let r := d.swap_tracked swap_throws other.files_
  (r.1, r.2.1, { other with files_ := r.2.2 })

end tracking_directory

/-! ## `segment_writer` (segment_writer.cpp) -/

/-- Modelled from the spec: the attribute types a `flags` set can hold, whose
headers are missing ("frequencies, positions, offsets, payloads, and a norm");
`index_field` names `norm` only. -/
inductive feature where
  | frequency
  | position
  | offset
  | payload
  | norm
deriving DecidableEq, Repr

/-- Type `flags`: a set of features. -/
abbrev flags := Finset feature

/-- The interface of `field_data` that `index_field` uses (the class lives in a
file that is not part of the sources at hand): `empty()`, `meta().features`
and `invert(...)`, over a slot state `σ`, a token stream `τ` and a boost `β`. -/
structure field_data_ops (σ τ β : Type) where
  empty : σ → Bool
  features : σ → flags
  invert : σ → τ → flags → β → Nat → Bool × σ

/-- The data members of `segment_writer` that the embedded methods read or
write. `norm_fields_` holds slot identifiers in place of `field_data*`
pointers, `fields_` is represented by the segment features it accumulates,
`columns_` by its (name, handle) entries, `dir_` is the tracking directory. -/
structure segment_writer where
  docs_mask_ : Finset Nat
  num_docs_cached_ : Nat
  norm_fields_ : Finset Nat
  fields_ : flags
  columns_ : List (String × Nat)
  dir_ : tracking_directory
deriving DecidableEq

/-- What one call of `index_field` leaves behind: the returned flag, the slot,
the writer, and how many times `slot.invert` was called. -/
structure index_field_result (σ : Type) where
  ok : Bool
  slot : σ
  writer : segment_writer
  invert_calls : Nat

/-- What a sub-writer reports when `flush` runs it: success, a failure it
reports through its return value, or a thrown error. -/
inductive sub_outcome where
  | ok
  | failed
  | threw
deriving DecidableEq, Repr

/-- One sub-writer's part of `flush` as seen by the writer's directory: the
names passed to `dir_.create`, in order, each with whether the wrapped
directory returned a stream, and the outcome of the sub-writer. -/
structure sub_writer_run where
  creates : List (String × Bool)
  outcome : sub_outcome
deriving DecidableEq

/-- Type `segment_meta`: the fields the embedded code uses. -/
structure segment_meta where
  name : String
  version : Nat
  docs_count : Nat
  files : Finset String
deriving DecidableEq

/-- The collaborators of one call of `segment_writer::flush`: the runs of the
five sub-writers, whether the set swap throws, and the name
`segment_meta_writer::filename` returns. -/
structure flush_env where
  sf_writer : sub_writer_run
  col_writer : sub_writer_run
  col_meta_writer : sub_writer_run
  field_writer : sub_writer_run
  swap_throws : Bool
  segment_meta_writer : sub_writer_run
  segment_meta_filename : String

/-- How a call of `flush` ends: it returns a flag, or a sub-writer's error
leaves it. -/
inductive flush_exit where
  | returned (ok : Bool)
  | threw
deriving DecidableEq, Repr

/-- What one call of `flush` leaves behind. -/
structure flush_result where
  ended : flush_exit
  writer : segment_writer
  filename : String
  segment : segment_meta

namespace segment_writer

/-- Method `segment_writer::remove` (lines 44-48):
`doc_id < min() + num_docs_cached_ && docs_mask_.insert(doc_id).second`.
The sum is taken without wrap-around (the width of `num_docs_cached_` is
declared in the class header). -/
def remove (minDoc : Nat) (w : segment_writer) (doc_id : Nat) : Bool × segment_writer :=
  if doc_id < minDoc + w.num_docs_cached_ then
    if doc_id ∈ w.docs_mask_ then (false, w)
    else (true, { w with docs_mask_ := insert doc_id w.docs_mask_ })
  else (false, w)

/-- Method `segment_writer::index_field` (lines 50-73). `sid` identifies the
slot (the address `&slot` in the source). -/
def index_field {σ τ β : Type} (ops : field_data_ops σ τ β) (w : segment_writer)
    (sid : Nat) (slot : σ) (doc_id : Nat) (tokens : τ) (features : flags) (boost : β) :
    index_field_result σ :=
  if ops.empty slot || decide (features ⊆ ops.features slot) then
    let r := ops.invert slot tokens
      (if ops.empty slot then features else ops.features slot) boost doc_id
    if r.1 then
      { ok := true, slot := r.2, invert_calls := 1,
        writer := { w with
          norm_fields_ :=
            if feature.norm ∈ features then insert sid w.norm_fields_ else w.norm_fields_,
          fields_ := w.fields_ ∪ features } }
    else { ok := false, slot := r.2, writer := w, invert_calls := 1 }
  else { ok := false, slot := slot, writer := w, invert_calls := 0 }

/-- The writer's directory after a sub-writer made its `create` calls. -/
def run_sub_writer (d : tracking_directory) (r : sub_writer_run) : tracking_directory :=
  r.creates.foldl
    (fun acc c => (acc.create c.1 (if c.2 then create_result.stream else create_result.null)).2) d

/-- The writer's directory right before `dir_.swap_tracked(meta.files)` when no
sub-writer threw: after the stored-fields writer, the columnstore writer, the
column-meta writer (run only when `columns_` is not empty) and the field
writers. -/
def dir_before_swap (env : flush_env) (w : segment_writer) : tracking_directory :=
  let d1 := run_sub_writer w.dir_ env.sf_writer
  let d2 := run_sub_writer d1 env.col_writer
  let d3 := if w.columns_.isEmpty then d2 else run_sub_writer d2 env.col_meta_writer
  run_sub_writer d3 env.field_writer

/-- Method `segment_writer::flush` (lines 136-187). No result of a sub-writer is
inspected; a thrown error leaves the function where it is thrown. -/
def flush (env : flush_env) (w : segment_writer) (filename : String) (segment : segment_meta) :
    flush_result :=
  -- sf_writer_->finish(); sf_writer_->reset();
  let w1 := { w with dir_ := run_sub_writer w.dir_ env.sf_writer }
  if env.sf_writer.outcome = sub_outcome.threw then
    { ended := .threw, writer := w1, filename := filename, segment := segment }
  else
  -- col_writer_->flush();
  let w2 := { w1 with dir_ := run_sub_writer w1.dir_ env.col_writer }
  if env.col_writer.outcome = sub_outcome.threw then
    { ended := .threw, writer := w2, filename := filename, segment := segment }
  else
  -- if (!columns_.empty()) { ...; columns_.clear(); }
  let w3 := if w2.columns_.isEmpty then w2
    else { w2 with dir_ := run_sub_writer w2.dir_ env.col_meta_writer }
  if !w2.columns_.isEmpty && env.col_meta_writer.outcome = sub_outcome.threw then
    { ended := .threw, writer := w3, filename := filename, segment := segment }
  else
  let w4 := { w3 with columns_ := [] }
  -- fields_.flush(*field_meta_writer_, *field_writer_, state);
  let w5 := { w4 with dir_ := run_sub_writer w4.dir_ env.field_writer }
  if env.field_writer.outcome = sub_outcome.threw then
    { ended := .threw, writer := w5, filename := filename, segment := segment }
  else
  -- meta.docs_count = num_docs_cached_; meta.files.clear();
  let m1 := { segment with docs_count := w5.num_docs_cached_, files := ∅ }
  -- if (!dir_.swap_tracked(meta.files)) return false;
  let sw := w5.dir_.swap_tracked env.swap_throws m1.files
  if !sw.1 then
    { ended := .returned false, writer := { w5 with dir_ := sw.2.1 }, filename := filename,
      segment := { m1 with files := sw.2.2 } }
  else
  let w6 := { w5 with dir_ := sw.2.1 }
  let m2 := { m1 with files := sw.2.2 }
  -- writer->write(dir_, meta); filename = writer->filename(meta);
  let w7 := { w6 with dir_ := run_sub_writer w6.dir_ env.segment_meta_writer }
  if env.segment_meta_writer.outcome = sub_outcome.threw then
    { ended := .threw, writer := w7, filename := filename, segment := m2 }
  else
    { ended := .returned true, writer := w7, filename := env.segment_meta_filename,
      segment := m2 }

end segment_writer

/-- The entries of `columns_` when the names `names` were inserted in this order
and received consecutive handles from `first` on. -/
def numbered_columns : Nat → List String → List (String × Nat)
  | _, [] => []
  | first, n :: rest => (n, first) :: numbered_columns (first + 1) rest

/-- Number of values of `uint32_t`. -/
def U32_MOD : Nat := 4294967296

/-- Number of values of `byte_type`. -/
def BYTE_MOD : Nat := 256

/-- Function `::similarity(distance, size)` (lines 48-55). The `assert(size)`
guards the division: `none` stands for a call with `size == 0` (the assertion
fails; without assertions the float division is by zero). Else the value of
`1 - distance / size` as an exact rational, that is, before the roundings of
the 32-bit float conversion, division and subtraction, which are not part of
the embedding: the code's value is this one where the quotient is a dyadic
fraction of at most 24 bits (as 1/4), and the nearest float roundings of it
elsewhere (as for 1/3). -/
def similarity (distance size : Nat) : Option ℚ :=
  if size = 0 then none else some (1 - (distance : ℚ) / (size : ℚ))

namespace levenshtein_terms_visitor

/-- Member `utf8_term_size_` as the constructor sets it (line 146):
`std::max(1U, uint32_t(utf8_utils::utf8_length(term)))` for the query term. -/
def utf8_term_size_ (query_len : Nat) : Nat := max 1 (query_len % U32_MOD)

/-- Member `no_distance_` as the constructor sets it (line 147):
`d.max_distance() + 1` narrowed to `byte_type`. -/
def no_distance_ (max_distance : Nat) : Nat := (max_distance + 1) % BYTE_MOD

/-- The `size` argument `visit()` passes to `::similarity` (lines 177-178):
`std::min(utf8_value_size, utf8_term_size_)`, with `utf8_value_size` the
length of the matched term narrowed to `uint32_t`. -/
def visit_size (value_len query_len : Nat) : Nat :=
  min (value_len % U32_MOD) (utf8_term_size_ query_len)

/-- The key `visit()` hands to `collector_.collect` (lines 176-181), for a
matched term of UTF-8 length `value_len`, a query term of UTF-8 length
`query_len` and the distance `*distance_`. -/
def visit_key (distance value_len query_len : Nat) : Option ℚ :=
  similarity distance (visit_size value_len query_len)

end levenshtein_terms_visitor

/-- The scoring key as the specification writes it:
`1 - distance / max(1, min(utf8_len(term), utf8_len(query)))`. -/
def spec_similarity (distance value_len query_len : Nat) : ℚ :=
  1 - (distance : ℚ) / ((max 1 (min value_len query_len) : Nat) : ℚ)

/-! ## `segment_reader` (segment_reader.cpp) -/

/-- Type `column_meta`: a column's name and id. -/
structure column_meta where
  name : String
  id : Nat
deriving DecidableEq, Repr

/-- Type `columnstore_reader::values_reader_f`: called with a document and the
current content of the output bytes, it returns its flag and the output bytes
afterwards. -/
abbrev values_reader_f := Nat → List Nat → Bool × List Nat

/-- The interface of `columnstore_reader` that the segment reader uses, over a
visitor type `V`. -/
structure columnstore_reader (V : Type) where
  values : Nat → values_reader_f
  visit : Nat → V → Bool

/-- The three containers `read_columns_meta` fills. Pointers to elements of
`columns` are positions in it: `id_to_column[i]` is `none` for a null pointer,
`name_to_column` is the hash map as a list of (name, position) entries with
distinct names. -/
structure columns_state where
  columns : List column_meta
  id_to_column : List (Option Nat)
  name_to_column : List (String × Nat)
deriving DecidableEq

/-- The data members of `segment_reader_impl`, over the field reader type `F`
and the visitor type `V`. -/
structure segment_reader_impl (F V : Type) where
  columns_ : List column_meta
  columnstore_reader_ : Option (columnstore_reader V)
  docs_count_ : Nat
  docs_mask_ : Finset Nat
  field_reader_ : Option F
  id_to_column_ : List (Option Nat)
  meta_version_ : Nat
  name_to_column_ : List (String × Nat)

/-- Class `segment_reader`: the `impl_` pointer; `none` is the empty reader
(`operator bool` is false). -/
abbrev segment_reader (F V : Type) := Option (segment_reader_impl F V)

/-- What the directory and the codec answer during one `segment_reader::open`:
the mask `read_document_mask` loads, the field reader and whether its
`prepare` succeeds, `has<columnstore_reader>(meta)`, the columnstore reader and
whether its `prepare` succeeds, the column count the column-meta reader's
`prepare` reports (`none` when `prepare` returns false) and the entries its
`read` delivers before it returns false. -/
structure open_env (F V : Type) where
  docs_mask : Finset Nat
  field_reader : F
  field_reader_prepare : Bool
  has_columnstore : Bool
  columnstore : columnstore_reader V
  columnstore_prepare : Bool
  column_meta_prepare : Option Nat
  column_meta_entries : List column_meta

/-- The `for (column_meta meta; reader->read(meta);)` loop of
`read_columns_meta` (lines 108-123): the returned flag when the loop returns
early (`false`, on a duplicate name) or runs to its end (`true`), and the
containers. The embedding covers the runs in which the reader delivers at most
`count` entries, each with an id below `count`, as the column-meta format has
them: `id_to_column[column.id] = &column` then writes inside the vector and
the pointers into `columns` (positions here) stay valid. Outside these runs
the source writes past `id_to_column` or keeps pointers into a vector that was
reallocated, which the language leaves undefined; the definition skips such a
write and keeps positions, which stands for nothing in the code. -/
def read_columns_loop : List column_meta → columns_state → Bool × columns_state
  | [], st => (true, st)
  | m :: rest, st =>
    let pos := st.columns.length
    let st1 : columns_state :=
      { columns := st.columns ++ [m],
        id_to_column := st.id_to_column.set m.id (some pos),
        name_to_column := st.name_to_column }
    if (st.name_to_column.lookup m.name).isSome then (false, st1)
    else read_columns_loop rest { st1 with name_to_column := st.name_to_column ++ [(m.name, pos)] }

/-- Function `read_columns_meta` (lines 89-132). The `assert(std::is_sorted(...))`
is compiled out of release builds and is not part of the embedding. -/
def read_columns_meta (prepare : Option Nat) (entries : List column_meta)
    (st : columns_state) : Bool × columns_state :=
  match prepare with
  | none => (false, st)
  | some count =>
    -- columns.reserve(count); id_to_column.resize(count); name_to_column.reserve(count);
    read_columns_loop entries
      { st with id_to_column :=
          st.id_to_column.take count ++ List.replicate (count - st.id_to_column.length) none }

namespace segment_reader_impl

/-- Method `segment_reader_impl::open` (lines 367-403). The flag
`read_columns_meta` returns is not used. -/
def «open» {F V : Type} (env : open_env F V) (segment : segment_meta) : segment_reader F V :=
  -- PTR_NAMED(segment_reader_impl, reader, dir, meta.version, meta.docs_count);
  -- index_utils::read_document_mask(reader->docs_mask_, dir, meta);
  let reader : segment_reader_impl F V :=
    { columns_ := [], columnstore_reader_ := none, docs_count_ := segment.docs_count,
      docs_mask_ := env.docs_mask, field_reader_ := none, id_to_column_ := [],
      meta_version_ := segment.version, name_to_column_ := [] }
  if !env.field_reader_prepare then none
  else
    let reader1 := { reader with field_reader_ := some env.field_reader }
    let reader2 :=
      if env.has_columnstore && env.columnstore_prepare then
        { reader1 with columnstore_reader_ := some env.columnstore }
      else reader1
    let cols := (read_columns_meta env.column_meta_prepare env.column_meta_entries
      { columns := reader2.columns_, id_to_column := reader2.id_to_column_,
        name_to_column := reader2.name_to_column_ }).2
    some { reader2 with columns_ := cols.columns, id_to_column_ := cols.id_to_column,
                        name_to_column_ := cols.name_to_column }

/-- Method `segment_reader_impl::meta_version()` (lines 363-365). -/
def meta_version {F V : Type} (r : segment_reader_impl F V) : Nat := r.meta_version_

/-- Method `segment_reader::reopen(meta)` (lines 277-281) on a reader whose
`impl_` is `r`: the returned reader and the number of calls of
`segment_reader_impl::open` made. `env` is what the directory `impl_->dir()`
and the codec of `meta` would answer to an `open`. -/
def reopen {F V : Type} (r : segment_reader_impl F V) (env : open_env F V)
    (segment : segment_meta) : segment_reader F V × Nat :=
  if r.meta_version = segment.version then (some r, 0)
  else (segment_reader_impl.open env segment, 1)

/-- Method `segment_reader_impl::docs_count()` (lines 332-334). -/
def docs_count {F V : Type} (r : segment_reader_impl F V) : Nat := r.docs_count_

/-- Method `segment_reader_impl::live_docs_count()` (lines 359-361):
`docs_count_ - docs_mask_.size()` in unsigned 64-bit arithmetic. -/
def live_docs_count {F V : Type} (r : segment_reader_impl F V) : Nat :=
  (r.docs_count_ % U64_MOD + (U64_MOD - r.docs_mask_.card % U64_MOD)) % U64_MOD

/-- Method `segment_reader_impl::column(name)` (lines 314-319): the entry the
hash map holds for `name`, or `none` for `nullptr`. -/
def column {F V : Type} (r : segment_reader_impl F V) (name : String) : Option column_meta :=
  match r.name_to_column_.lookup name with
  | none => none
  | some pos => r.columns_.get? pos

/-- Method `segment_reader_impl::columns()` (lines 321-326): the entries the
iterator walks, `columns_` from its first to its last element. -/
def columns {F V : Type} (r : segment_reader_impl F V) : List column_meta := r.columns_

/-- Method `segment_reader_impl::values(field)` (lines 409-418). -/
def values {F V : Type} (r : segment_reader_impl F V) (field : Nat) : values_reader_f :=
  match r.columnstore_reader_ with
  | none => fun _ out => (false, out)
  | some cs => cs.values field

/-- Method `segment_reader_impl::visit(field, reader)` (lines 420-425). -/
def visit {F V : Type} (r : segment_reader_impl F V) (field : Nat) (visitor : V) : Bool :=
  match r.columnstore_reader_ with
  | some cs => cs.visit field visitor
  | none => false

end segment_reader_impl

/-! ## `directory_utils::reference` (directory_utils.cpp, lines 23-42) -/

/-- The part of a `directory` that `reference` touches. `answers k name` is what
the `k`-th call of `exists(result, name)` on this directory does: whether the
call succeeds and the value it stores in `result` (files may come and go
between calls); `exists_calls` counts the calls made so far; `file_refs` is the
set of names the `index_file_refs` attribute holds. -/
structure directory where
  answers : Nat → String → Bool × Bool
  exists_calls : Nat
  file_refs : Finset String

/-- Type `index_file_refs::ref_t`: a shared pointer to the referenced name;
`none` is the empty ref (`nullptr`). -/
abbrev ref_t := Option String

namespace directory

/-- Call `dir.exists(result, name)`: (returned flag, `result`) and the directory
afterwards. -/
def exists_file (dir : directory) (name : String) : (Bool × Bool) × directory :=
  (dir.answers dir.exists_calls name, { dir with exists_calls := dir.exists_calls + 1 })

/-- Call `dir.attributes().add<index_file_refs>()->add(name)`: the ref to `name`
and the directory afterwards. -/
def add_ref (dir : directory) (name : String) : ref_t × directory :=
  (some name, { dir with file_refs := insert name dir.file_refs })

end directory

namespace directory_utils

/-- Function `directory_utils::reference(dir, name, include_missing)`
(lines 23-42). -/
def reference (dir : directory) (name : String) (include_missing : Bool) : ref_t × directory :=
  if include_missing then dir.add_ref name
  else
    -- if (!dir.exists(exists, name) || !exists) return nullptr;
    let c1 := dir.exists_file name
    if !c1.1.1 || !c1.1.2 then (none, c1.2)
    else
      let a := c1.2.add_ref name
      -- return dir.exists(exists, name) && exists ? ref : ref_t(nullptr);
      let c2 := a.2.exists_file name
      if c2.1.1 && c2.1.2 then (a.1, c2.2) else (none, c2.2)

end directory_utils

/-! ## `directory_utils::remove_except_current_segments`
(directory_utils.cpp, lines 178-211) -/

/-- What the codec's index-meta reader answers: the name
`last_segments_file(dir, segment_file)` stores (`none` when it returns false),
and, for the segments file read, the files `meta.visit_files` hands to its
visitor once `reader->read(dir, meta, segment_file)` has filled `meta`: the
files the latest index meta references. -/
structure index_meta_source where
  last_segments_file : Option String
  visit_files : String → List String

namespace directory_utils

/-- Function `directory_utils::remove_except_current_segments(dir, codec)`
(lines 178-211): the acceptor it returns, as a function from a filename to
whether its removal is approved. -/
def remove_except_current_segments (src : index_meta_source) : String → Bool :=
  match src.last_segments_file with
  | none => fun _ => true
  | some segment_file =>
    -- meta.visit_files([&retain](file) { retain.emplace(file); return true; });
    let retain : Finset String :=
      (src.visit_files segment_file).foldl (fun acc file => insert file acc) ∅
    -- retain.emplace(std::move(segment_file));
    let retain := insert segment_file retain
    fun filename => decide (filename ∉ retain)

end directory_utils

/-! ## `by_edit_distance` (levenshtein_filter.cpp, lines 57-75 and 316-362) -/

/-- Function template `executeLevenshtein` (lines 57-75), over the result `R` of
the three callbacks: the result of the callback it runs and the number of
calls of the provider. `max_distance` is a `byte_type`; the provider returns
`none` for an invalid (null) parametric description. -/
def executeLevenshtein {D R : Type} (max_distance : Nat) (provider : Nat → Bool → Option D)
    (with_transpositions : Bool) (inv : Unit → R) (t : Unit → R) (lev : D → R) : R × Nat :=
  if 0 = max_distance then (t (), 0)
  else
    match provider max_distance with_transpositions with
    | none => (inv (), 1)
    | some d => (lev d, 1)

/-- The functions `by_edit_distance::prepare` hands its arguments to, over the
types of the index `I`, the order `O`, the boost `B`, the term `T`, the
parametric description `D` and the prepared filter `Q`:
`filter::prepared::empty()`, `term_query::make` and
`prepare_levenshtein_filter`. -/
structure prepare_ops (I O B T D Q : Type) where
  empty : Q
  term_query_make : I → O → B → String → T → Q
  prepare_levenshtein_filter : I → O → B → String → T → Nat → D → Q

/-- The functions `by_edit_distance::visit` hands its arguments to, over the
term reader `Rd`, the term `T` and the parametric description `D`, each given
by the terms it invokes the visitor for: `term_query::visit`, and
`automaton_visit` with the matcher of the automaton
`make_levenshtein_automaton(d, term)`. -/
structure visit_ops (Rd T D : Type) where
  term_query_visit : Rd → T → List T
  automaton_visit : D → Rd → T → List T

namespace by_edit_distance

/-- Method `by_edit_distance::prepare` (lines 316-340): the prepared filter and
the number of calls of the provider. -/
def prepare {I O B T D Q : Type} (ops : prepare_ops I O B T D Q) (index : I) (order : O)
    (boost : B) (field : String) (term : T) (scored_terms_limit : Nat) (max_distance : Nat)
    (provider : Nat → Bool → Option D) (with_transpositions : Bool) : Q × Nat :=
  executeLevenshtein max_distance provider with_transpositions
    (fun _ => ops.empty)
    (fun _ => ops.term_query_make index order boost field term)
    (fun d => ops.prepare_levenshtein_filter index order boost field term scored_terms_limit d)

/-- Method `by_edit_distance::visit` (lines 342-362): the terms the visitor is
invoked for and the number of calls of the provider. -/
def visit {Rd T D : Type} (ops : visit_ops Rd T D) (reader : Rd) (term : T)
    (max_distance : Nat) (provider : Nat → Bool → Option D) (with_transpositions : Bool) :
    List T × Nat :=
  executeLevenshtein max_distance provider with_transpositions
    (fun _ => [])
    (fun _ => ops.term_query_visit reader term)
    (fun d => ops.automaton_visit d reader term)

end by_edit_distance

/-! ## `fs_lock` (fs_directory.cpp, lines 78-156) -/

/-- The functions of `file_utils` that `fs_lock` calls, over a file-system state
`φ` and a lock handle `H`; each returns its result and the file system
afterwards. `exists_path` returns the flag of `file_utils::exists` and the
value it stores in `result`. -/
structure file_utils_ops (φ H : Type) where
  exists_path : φ → String → (Bool × Bool) × φ
  mkdir : φ → String → Bool × φ
  verify_lock_file : φ → String → Bool × φ
  remove : φ → String → Bool × φ
  create_lock_file : φ → String → Option H × φ

/-- The data members of `fs_lock`; `handle_` is `none` for a null handle. -/
structure fs_lock (H : Type) where
  dir_ : String
  file_ : String
  handle_ : Option H
deriving DecidableEq

namespace fs_lock

/-- The path `dir_ / file_`. -/
def path {H : Type} (l : fs_lock H) : String := l.dir_ ++ "/" ++ l.file_

/-- Method `fs_lock::lock()` (lines 84-117): the returned flag, the lock and the
file system afterwards. -/
def lock {φ H : Type} (ops : file_utils_ops φ H) (l : fs_lock H) (fs : φ) :
    Bool × fs_lock H × φ :=
  if l.handle_.isSome then (false, l, fs)  -- don't allow self obtaining
  else
    let e := ops.exists_path fs l.dir_
    if !e.1.1 then (false, l, e.2)
    else
      -- if (!exists && !file_utils::mkdir(dir_.c_str(), true)) return false;
      let m := if !e.1.2 then ops.mkdir e.2 l.dir_ else (true, e.2)
      if !e.1.2 && !m.1 then (false, l, m.2)
      else
        let v := ops.verify_lock_file m.2 l.path
        if !v.1 then
          -- if (!exists(exists, path) || (exists && !remove(path))) return false;
          let e2 := ops.exists_path v.2 l.path
          if !e2.1.1 then (false, l, e2.2)
          else
            let rm := if e2.1.2 then ops.remove e2.2 l.path else (true, e2.2)
            if e2.1.2 && !rm.1 then (false, l, rm.2)
            else
              let c := ops.create_lock_file rm.2 l.path
              (c.1.isSome, { l with handle_ := c.1 }, c.2)
        else (l.handle_.isSome, l, v.2)

/-- Method `fs_lock::is_locked(result)` (lines 119-134): the returned flag, the
value stored in `result` (`none` when nothing is stored), the lock and the file
system afterwards. `try_throws` says whether the `try` block is left by an
exception. -/
def is_locked {φ H : Type} (ops : file_utils_ops φ H) (l : fs_lock H) (fs : φ)
    (try_throws : Bool) : Bool × Option Bool × fs_lock H × φ :=
  if l.handle_.isSome then (true, some true, l, fs)
  else if try_throws then (false, none, l, fs)
  else
    let v := ops.verify_lock_file fs l.path
    (true, some v.1, l, v.2)

/-- Method `fs_lock::unlock()` (lines 136-150): the returned flag, the lock and
the file system afterwards. `win32` says whether `_WIN32` is defined. -/
def unlock {φ H : Type} (ops : file_utils_ops φ H) (win32 : Bool) (l : fs_lock H) (fs : φ) :
    Bool × fs_lock H × φ :=
  if l.handle_.isSome then
    let l1 := { l with handle_ := none }
    if win32 then (true, l1, fs)  -- file will be automatically removed on close
    else
      let rm := ops.remove fs l.path
      (rm.1, l1, rm.2)
  else (false, l, fs)

end fs_lock

/-! ## `fs_index_input::seek_internal` (fs_directory.cpp, lines 314-322) -/

/-- Type `fs_index_input::file_handle`: the file size and the position of the
native handle. -/
structure file_handle where
  size : Nat
  pos : Nat
deriving DecidableEq, Repr

/-- The data members of `fs_index_input` the embedded methods use: the logical
position `pos_` and the shared handle. -/
structure fs_index_input where
  pos_ : Nat
  handle_ : file_handle
deriving DecidableEq, Repr

namespace fs_index_input

/-- Method `fs_index_input::seek_internal(pos)` (lines 314-322): the stream
afterwards, or, when `io_error` is thrown, the stream as the throw leaves
it. -/
def seek_internal (i : fs_index_input) (pos : Nat) : Except fs_index_input fs_index_input :=
  if pos > i.handle_.size then Except.error i
  else Except.ok { i with pos_ := pos }

/-- Method `fs_index_input::length()` (lines 307-309). -/
def length (i : fs_index_input) : Nat := i.handle_.size

end fs_index_input

/-! ## `fs_index_output` (fs_directory.cpp, lines 161-225) -/

/-- Modelled from the spec: the `crc32c` register step for one byte (the class
is declared in `utils/crc.hpp`, which is missing; the spec names the checksum
"CRC-32C"): the reflected CRC with polynomial `0x1EDC6F41`, bit by bit. -/
def crc32c_byte (reg byte : Nat) : Nat :=
  (List.range 8).foldl
    (fun c _ => if c % 2 = 1 then Nat.xor (c / 2) 0x82F63B78 else c / 2)
    (Nat.xor reg (byte % 256))

/-- Modelled from the spec: `crc32c::process_bytes`, on the register. -/
def crc32c_process (reg : Nat) (bytes : List Nat) : Nat :=
  bytes.foldl crc32c_byte reg

/-- Modelled from the spec: the initial `crc32c` register. -/
def crc32c_init : Nat := 0xFFFFFFFF

/-- Modelled from the spec: `crc32c::checksum()`, the register with the final
complement. -/
def crc32c_checksum (reg : Nat) : Nat := Nat.xor reg 0xFFFFFFFF

/-- Modelled from the spec: the CRC-32C of a byte string. -/
def crc32c (bytes : List Nat) : Nat :=
  crc32c_checksum (crc32c_process crc32c_init bytes)

/-- Size of `buf_`, the buffer of an `fs_index_output` (line 222). -/
def OUTPUT_BUF_SIZE : Nat := 1024

/-- State of an `fs_index_output`: the bytes buffered and not yet flushed, the
bytes the file handle accepted, the `crc` register and the number of
`file_utils::fwrite` calls made. -/
structure fs_index_output where
  buf : List Nat
  file : List Nat
  crc : Nat
  fwrites : Nat
deriving DecidableEq, Repr

namespace fs_index_output

/-- A stream as `fs_index_output::open` makes it. -/
def opened : fs_index_output := { buf := [], file := [], crc := crc32c_init, fwrites := 0 }

/-- Method `fs_index_output::flush_buffer(b, len)` (lines 203-214). `fwrite k len`
is what the `k`-th call of `file_utils::fwrite` returns when asked to write
`len` bytes. The result is the stream afterwards, or, when `io_error` is
thrown, the stream as the throw leaves it. -/
def flush_buffer (fwrite : Nat → Nat → Nat) (o : fs_index_output) (b : List Nat) :
    Except fs_index_output fs_index_output :=
  let len := b.length
  let len_written := fwrite o.fwrites len
  -- crc.process_bytes(b, len_written);
  let o1 := { o with file := o.file ++ b.take len_written,
                     crc := crc32c_process o.crc (b.take len_written),
                     fwrites := o.fwrites + 1 }
  if len ≠ 0 ∧ len_written ≠ len then Except.error o1 else Except.ok o1

/-- Modelled from the spec: `buffered_index_output::flush()`, which is missing
from the sources ("internally buffered", "flushing is implied"): the buffered
bytes are handed to `flush_buffer` and the buffer is emptied. -/
def flush (fwrite : Nat → Nat → Nat) (o : fs_index_output) :
    Except fs_index_output fs_index_output :=
  match flush_buffer fwrite o o.buf with
  | Except.ok o1 => Except.ok { o1 with buf := [] }
  | Except.error o1 => Except.error o1

/-- Modelled from the spec: `buffered_index_output::write_byte`, which is missing
from the sources ("internally buffered (default 1 KiB)"): the byte goes to the
buffer, and a full buffer is flushed. -/
def write_byte (fwrite : Nat → Nat → Nat) (o : fs_index_output) (b : Nat) :
    Except fs_index_output fs_index_output :=
  let o1 := { o with buf := o.buf ++ [b] }
  if o1.buf.length ≥ OUTPUT_BUF_SIZE then flush fwrite o1 else Except.ok o1

/-- Modelled from the spec: `buffered_index_output::write_bytes`, byte by
byte. -/
def write_bytes (fwrite : Nat → Nat → Nat) :
    fs_index_output → List Nat → Except fs_index_output fs_index_output
  | o, [] => Except.ok o
  | o, b :: rest =>
    match write_byte fwrite o b with
    | Except.ok o1 => write_bytes fwrite o1 rest
    | Except.error o1 => Except.error o1

/-- Method `fs_index_output::checksum()` (lines 197-200): `flush()`, then
`crc.checksum()`; the value returned and the stream afterwards. -/
def checksum (fwrite : Nat → Nat → Nat) (o : fs_index_output) :
    Except fs_index_output (Nat × fs_index_output) :=
  match flush fwrite o with
  | Except.ok o1 => Except.ok (crc32c_checksum o1.crc, o1)
  | Except.error o1 => Except.error o1

/-- A sequence of `write_bytes` calls, one per element of `chunks`. -/
def write_all (fwrite : Nat → Nat → Nat) :
    fs_index_output → List (List Nat) → Except fs_index_output fs_index_output
  | o, [] => Except.ok o
  | o, chunk :: rest =>
    match write_bytes fwrite o chunk with
    | Except.ok o1 => write_all fwrite o1 rest
    | Except.error o1 => Except.error o1

end fs_index_output

/-- The invariant of an `fs_index_output` whose writes were complete: the bytes
written so far, `all`, are the bytes in the file followed by the buffered
bytes, and the CRC register covers the bytes in the file. -/
def output_covers (o : fs_index_output) (all : List Nat) : Prop :=
  o.file ++ o.buf = all ∧ o.crc = crc32c_process crc32c_init o.file

instance (o : fs_index_output) (all : List Nat) : Decidable (output_covers o all) := by
  unfold output_covers
  infer_instance

/-- The names a sub-writer passed to `dir_.create`. -/
def sub_writer_run.names (r : sub_writer_run) : Finset String :=
  (r.creates.map Prod.fst).toFinset

/-! ## Column metadata written by `segment_writer::flush`
(segment_writer.cpp, lines 146-156) -/

/-- The entries `flush` hands to `col_meta_writer_->write(column.name,
column.handle.first)` in its loop `for (auto& entry : columns_)`: one per
element of the hash map `columns_`, in the order `iteration` in which the loop
visits them. Nothing sorts them. -/
def flush_column_meta (iteration : List (String × Nat)) : List column_meta :=
  iteration.map (fun entry => { name := entry.1, id := entry.2 })

/-- Method `segment_reader_impl::docs_iterator()` (lines 336-343) on the reader
state. -/
def segment_reader_impl.docs_iterator {F V : Type} (minDoc : Nat)
    (r : segment_reader_impl F V) : masked_docs_iterator :=
  iresearch.docs_iterator minDoc r.docs_count_ r.docs_mask_

/-! ## `segment_writer::store_field` and `segment_writer::finish`
(segment_writer.cpp, lines 75-88 and 117-134) -/

/-- The per-document data members of `segment_writer` besides `norm_fields_`:
the field ids of `header_.doc_fields` and the map `docs_context_` from a
document id to its update context (type `C`). -/
structure doc_state (C : Type) where
  header_doc_fields : List Nat
  docs_context_ : Nat → Option C

/-- What one call of `finish` leaves behind: the writer, the per-document
members, the slots for which `field->write_norm` was called and the field ids
of the header handed to `sf_writer_->end(&header_)`. -/
structure finish_result (C : Type) where
  writer : segment_writer
  doc : doc_state C
  norm_writes : Finset Nat
  header_ended : List Nat

namespace segment_writer

/-- Method `segment_writer::store_field` (lines 75-88): the returned flag and the
per-document members afterwards. `written` is what `sf_writer_->write(serializer)`
returns, `field_id` is `slot.meta().id`. -/
def store_field {C : Type} (d : doc_state C) (written : Bool) (field_id : Nat) :
    Bool × doc_state C :=
  if written then (true, { d with header_doc_fields := d.header_doc_fields ++ [field_id] })
  else (false, d)

/-- Method `segment_writer::finish(doc_id, ctx)` (lines 117-134).
`norm_differs f` says whether, for the slot `f`, the value
`field->boost() / float_t(std::sqrt(double_t(field->size())))` differs from
`norm::DEFAULT()`. -/
def finish {C : Type} (norm_differs : Nat → Bool) (w : segment_writer) (d : doc_state C)
    (doc_id : Nat) (ctx : C) : finish_result C :=
  { -- for (auto* field : norm_fields_) if (norm_.value != norm::DEFAULT()) field->write_norm(...)
    norm_writes := w.norm_fields_.filter (fun f => norm_differs f = true),
    -- norm_fields_.clear();
    writer := { w with norm_fields_ := ∅ },
    -- sf_writer_->end(&header_); header_.doc_fields.clear(); docs_context_[doc_id] = ctx;
    header_ended := d.header_doc_fields,
    doc := { header_doc_fields := [],
             docs_context_ := fun id => if id = doc_id then some ctx else d.docs_context_ id } }

end segment_writer

/-- Method `tracking_directory::rename(src, dst)` (lines 315-334): the returned
flag and the directory afterwards. `renamed` is what `impl_.rename(src, dst)`
returns. The `catch` branch is taken only when the insertion into `files_`
throws; insertion into a set is total here, so the branch is not part of the
embedding. -/
def tracking_directory.rename (d : tracking_directory) (renamed : Bool) (src dst : String) :
    Bool × tracking_directory :=
  if !renamed then (false, d)
  else
    -- if (files_.emplace(dst).second) files_.erase(src);
    if dst ∈ d.files_ then (true, d)
    else (true, { d with files_ := (insert dst d.files_).erase src })

/-! ## `by_edit_distance::hash` and `by_edit_distance::equals`
(levenshtein_filter.cpp, lines 378-392; hash_utils.hpp, lines 39-46) -/

/-- Number of values of `size_t` (a 64-bit target). -/
def SIZE_MOD : Nat := 18446744073709551616

/-- Function `hash_combine(size_t seed, size_t v)` (hash_utils.hpp, lines 39-41):
`seed ^ (v + 0x9e3779b9 + (seed<<6) + (seed>>2))` in `size_t` arithmetic. -/
def hash_combine (seed v : Nat) : Nat :=
  Nat.xor seed ((v + 0x9e3779b9 + (seed * 64) % SIZE_MOD + seed / 4) % SIZE_MOD)

/-- The base class part of a `by_edit_distance` filter, over a type `P` of its
states: `by_prefix::equals` and `by_prefix::hash` (declared in files that are
not part of the sources at hand), and the `std::hash` of a `byte_type` and of
a `bool`, which the template overload of `hash_combine` applies (lines 43-46). -/
structure filter_base_ops (P : Type) where
  base_equals : P → P → Bool
  base_hash : P → Nat
  std_hash_byte : Nat → Nat
  std_hash_bool : Bool → Nat

/-- The data members of a `by_edit_distance` filter: its base class part, the
provider (by an identifier), `max_distance_` and `with_transpositions_`. -/
structure by_edit_distance_filter (P : Type) where
  base : P
  provider_ : Nat
  max_distance_ : Nat
  with_transpositions_ : Bool

namespace by_edit_distance_filter

/-- Method `by_edit_distance::hash()` (lines 378-384). -/
def hash {P : Type} (ops : filter_base_ops P) (f : by_edit_distance_filter P) : Nat :=
  let seed := hash_combine 0 (ops.base_hash f.base)
  let seed := hash_combine seed (ops.std_hash_byte f.max_distance_)
  hash_combine seed (ops.std_hash_bool f.with_transpositions_)

/-- Method `by_edit_distance::equals(rhs)` (lines 386-392). -/
def equals {P : Type} (ops : filter_base_ops P) (f rhs : by_edit_distance_filter P) : Bool :=
  ops.base_equals f.base rhs.base &&
    decide (f.max_distance_ = rhs.max_distance_) &&
    decide (f.with_transpositions_ = rhs.with_transpositions_)

end by_edit_distance_filter

/-! ## `fs_index_input::read_internal` and `fs_index_input::checksum`
(fs_directory.cpp, lines 235-255 and 324-344) -/

/-- Size of `buf_`, the buffer of an `fs_index_input` (line 385). -/
def INPUT_BUF_SIZE : Nat := 1024

/-- The file behind an `fs_index_input` as the C library shows it: `fseek_fails k`
says whether the `k`-th call of `file_utils::fseek` fails, and `fread k pos len`
is the bytes the `k`-th call of `file_utils::fread` delivers when asked for
`len` bytes at file position `pos` (at most `len` of them). -/
structure file_io where
  fseek_fails : Nat → Bool
  fread : Nat → Nat → Nat → List Nat

/-- How many calls of `fseek` and of `fread` were made. -/
structure io_calls where
  fseeks : Nat
  freads : Nat
deriving DecidableEq, Repr

/-- What a call of `read_internal` that returns leaves behind: the number of
bytes read, the caller's buffer, the stream and the call counts. -/
structure read_result where
  read : Nat
  buf : List Nat
  input : fs_index_input
  calls : io_calls
deriving DecidableEq, Repr

/-- The local state of the loop of `checksum`: the local `pos`, the stream, the
call counts, the local buffer `buf` and the `crc` register. -/
structure checksum_state where
  pos : Nat
  input : fs_index_input
  calls : io_calls
  buf : List Nat
  crc : Nat
deriving DecidableEq, Repr

/-- How a call of `fs_index_input::checksum` ends: it returns a checksum, it is
left by the `io_error` of a read, or its loop is still running when the
iterations granted are used up. Each case carries the stream as it is then. -/
inductive checksum_exit where
  | returned (crc : Nat) (input : fs_index_input)
  | io_error (input : fs_index_input)
  | running (input : fs_index_input)
deriving DecidableEq, Repr

namespace fs_index_input

/-- Method `fs_index_input::read_internal(b, len)` (lines 324-344): the result, or
the stream and call counts as the `io_error` of a failed `fseek` leaves
them. The first `read` bytes of the buffer are overwritten. -/
def read_internal (io : file_io) (i : fs_index_input) (calls : io_calls) (b : List Nat)
    (len : Nat) : Except (fs_index_input × io_calls) read_result :=
  let seeks := decide (i.handle_.pos ≠ i.pos_)
  if seeks && io.fseek_fails calls.fseeks then
    Except.error (i, { calls with fseeks := calls.fseeks + 1 })
  else
    -- handle_->pos = pos_;
    let hpos := if seeks then i.pos_ else i.handle_.pos
    let calls1 := if seeks then { calls with fseeks := calls.fseeks + 1 } else calls
    let data := (io.fread calls1.freads hpos len).take len
    let read := data.length
    -- pos_ = handle_->pos += read;
    let npos := (hpos + read) % SIZE_MOD
    Except.ok
      { read := read, buf := data ++ b.drop read,
        input := { pos_ := npos, handle_ := { i.handle_ with pos := npos } },
        calls := { calls1 with freads := calls1.freads + 1 } }

/-- The loop `for (auto pos = begin; pos < end; )` of `checksum` (lines 248-252),
for at most `fuel` iterations: the state when the loop ends (`Except.ok`, with
`some` state when it ran to its end and `none` when it is still running), or
the stream as the `io_error` of a read leaves it. -/
def checksum_loop (io : file_io) (end_ : Nat) :
    Nat → checksum_state → Except fs_index_input (Option checksum_state × fs_index_input)
  | 0, st => if st.pos < end_ then Except.ok (none, st.input) else Except.ok (some st, st.input)
  | fuel + 1, st =>
    if st.pos < end_ then
      let to_read := min (end_ - st.pos) INPUT_BUF_SIZE
      match read_internal io st.input st.calls st.buf to_read with
      | Except.error e => Except.error e.1
      | Except.ok r =>
        -- pos += read_internal(buf, to_read); crc.process_bytes(buf, to_read);
        checksum_loop io end_ fuel
          { pos := (st.pos + r.read) % SIZE_MOD, input := r.input, calls := r.calls,
            buf := r.buf, crc := crc32c_process st.crc (r.buf.take to_read) }
    else Except.ok (some st, st.input)

/-- Method `fs_index_input::checksum(offset)` (lines 235-255), with at most `fuel`
iterations of its loop. `buf` is the content of the local buffer on entry.
`restore_position` sets `pos_` back however the function is left. -/
def checksum (io : file_io) (i : fs_index_input) (offset : Nat) (buf : List Nat) (fuel : Nat) :
    checksum_exit :=
  let begin_ := i.pos_
  -- const auto end = (std::min)(begin + offset, handle_->size);
  let end_ := min ((begin_ + offset) % SIZE_MOD) i.handle_.size
  match checksum_loop io end_ fuel
      { pos := begin_, input := i, calls := { fseeks := 0, freads := 0 }, buf := buf,
        crc := crc32c_init } with
  | Except.error e => checksum_exit.io_error { e with pos_ := begin_ }
  | Except.ok (none, e) => checksum_exit.running e
  | Except.ok (some st, e) =>
    checksum_exit.returned (crc32c_checksum st.crc) { e with pos_ := begin_ }

end fs_index_input

/-- The position of the stream a call of `checksum` leaves behind, when the call
has ended. -/
def checksum_exit.position : checksum_exit → Option Nat
  | .returned _ input => some input.pos_
  | .io_error input => some input.pos_
  | .running _ => none

/-! ## The distance of a matched term (levenshtein_filter.cpp, lines 141-181) -/

/-- Where the member `distance_` of a `levenshtein_terms_visitor` points: at the
member `no_distance_`, or at the first byte of the payload of the term
iterator. -/
inductive distance_ptr where
  | no_distance
  | payload_front
deriving DecidableEq, Repr

/-- The data members of a `levenshtein_terms_visitor` that decide the scoring
key. -/
structure levenshtein_visitor_state where
  utf8_term_size_ : Nat
  no_distance_ : Nat
  distance_ : distance_ptr
deriving DecidableEq, Repr

namespace levenshtein_visitor_state

/-- The constructor (lines 141-148), for a description with `max_distance` and a
query term of UTF-8 length `query_len`. -/
def make (max_distance query_len : Nat) : levenshtein_visitor_state :=
  { utf8_term_size_ := levenshtein_terms_visitor.utf8_term_size_ query_len,
    no_distance_ := levenshtein_terms_visitor.no_distance_ max_distance,
    distance_ := distance_ptr.no_distance }

/-- Method `prepare(const seek_term_iterator& terms)` (lines 163-174). `payload` is
the payload attribute of the iterator: `none` when it has none, else the bytes
of its value. -/
def prepare (v : levenshtein_visitor_state) (payload : Option (List Nat)) :
    levenshtein_visitor_state :=
  match payload with
  | some (_ :: _) => { v with distance_ := distance_ptr.payload_front }
  | _ => { v with distance_ := distance_ptr.no_distance }

/-- The byte `*distance_` that `visit()` reads (line 178), `payload` being the
payload attribute of the iterator then; `none` when `distance_` points at the
first byte of a payload that has none. -/
def distance (v : levenshtein_visitor_state) (payload : Option (List Nat)) : Option Nat :=
  match v.distance_ with
  | distance_ptr.no_distance => some v.no_distance_
  | distance_ptr.payload_front =>
    match payload with
    | some (b :: _) => some b
    | _ => none

/-- Method `visit()` (lines 176-181): the key handed to the collector, for a
matched term of UTF-8 length `value_len`. -/
def visit (v : levenshtein_visitor_state) (payload : Option (List Nat)) (value_len : Nat) :
    Option (Option ℚ) :=
  (v.distance payload).map
    (fun d => similarity d (min (value_len % U32_MOD) v.utf8_term_size_))

end levenshtein_visitor_state

/-! ## The visiting overloads of `directory_utils::reference`
(directory_utils.cpp, lines 51-83 and 127-165) -/

/-- What a call of `reference` does that can be observed: it adds the
`index_file_refs` attribute to the directory, checks the existence of a file,
adds a ref to a file, or calls the visitor with the ref to a file (with the
visitor's answer). -/
inductive ref_event where
  | attribute
  | exists_check (name : String)
  | ref_add (name : String)
  | visitor_call (name : String) (answer : Bool)
deriving DecidableEq, Repr

/-- The state of a run of `reference`: the directory, the number of visitor
calls made and the events so far. -/
structure reference_state where
  dir : directory
  visitor_calls : Nat
  trace : List ref_event

namespace directory_utils

/-- The loop `for (const std::string* file; file = source();)` of
`reference(dir, source, visitor, include_missing)` (lines 59-80) over the names
the source still returns: the returned flag and the state afterwards.
`visitor k name` is the answer of the `k`-th visitor call when handed the ref
to `name`. -/
def reference_source_loop (visitor : Nat → String → Bool) (include_missing : Bool) :
    List String → reference_state → Bool × reference_state
  | [], st => (true, st)
  | file :: rest, st =>
    if include_missing then
      -- if (!visitor(attribute->add(*file))) return false; continue;
      let a := st.dir.add_ref file
      let answer := visitor st.visitor_calls file
      let st1 : reference_state :=
        { dir := a.2, visitor_calls := st.visitor_calls + 1,
          trace := st.trace ++ [ref_event.ref_add file, ref_event.visitor_call file answer] }
      if !answer then (false, st1) else reference_source_loop visitor include_missing rest st1
    else
      -- if (!dir.exists(exists, *file) || !exists) continue;
      let c1 := st.dir.exists_file file
      if !c1.1.1 || !c1.1.2 then
        reference_source_loop visitor include_missing rest
          { st with dir := c1.2, trace := st.trace ++ [ref_event.exists_check file] }
      else
        let a := c1.2.add_ref file
        let c2 := a.2.exists_file file
        let st1 : reference_state :=
          { st with dir := c2.2,
                    trace := st.trace ++ [ref_event.exists_check file, ref_event.ref_add file,
                      ref_event.exists_check file] }
        -- if (dir.exists(exists, *file) && exists && !visitor(std::move(ref))) return false;
        if c2.1.1 && c2.1.2 then
          let answer := visitor st1.visitor_calls file
          let st2 : reference_state :=
            { st1 with visitor_calls := st1.visitor_calls + 1,
                       trace := st1.trace ++ [ref_event.visitor_call file answer] }
          if !answer then (false, st2)
          else reference_source_loop visitor include_missing rest st2
        else reference_source_loop visitor include_missing rest st1

/-- Function `reference(dir, source, visitor, include_missing)` (lines 51-83):
`source` is the names the source returns before it returns `nullptr`. -/
def reference_source (dir : directory) (source : List String) (visitor : Nat → String → Bool)
    (include_missing : Bool) : Bool × reference_state :=
  -- auto& attribute = dir.attributes().add<index_file_refs>();
  reference_source_loop visitor include_missing source
    { dir := dir, visitor_calls := 0, trace := [ref_event.attribute] }

/-- The loop `for (auto& file: files)` of
`reference(dir, segment_meta, visitor, include_missing)` (lines 141-162). -/
def reference_files_loop (visitor : Nat → String → Bool) (include_missing : Bool) :
    List String → reference_state → Bool × reference_state
  | [], st => (true, st)
  | file :: rest, st =>
    if include_missing then
      let a := st.dir.add_ref file
      let answer := visitor st.visitor_calls file
      let st1 : reference_state :=
        { dir := a.2, visitor_calls := st.visitor_calls + 1,
          trace := st.trace ++ [ref_event.ref_add file, ref_event.visitor_call file answer] }
      if !answer then (false, st1) else reference_files_loop visitor include_missing rest st1
    else
      let c1 := st.dir.exists_file file
      if !c1.1.1 || !c1.1.2 then
        reference_files_loop visitor include_missing rest
          { st with dir := c1.2, trace := st.trace ++ [ref_event.exists_check file] }
      else
        let a := c1.2.add_ref file
        let c2 := a.2.exists_file file
        let st1 : reference_state :=
          { st with dir := c2.2,
                    trace := st.trace ++ [ref_event.exists_check file, ref_event.ref_add file,
                      ref_event.exists_check file] }
        if c2.1.1 && c2.1.2 then
          let answer := visitor st1.visitor_calls file
          let st2 : reference_state :=
            { st1 with visitor_calls := st1.visitor_calls + 1,
                       trace := st1.trace ++ [ref_event.visitor_call file answer] }
          if !answer then (false, st2)
          else reference_files_loop visitor include_missing rest st2
        else reference_files_loop visitor include_missing rest st1

/-- Function `reference(dir, segment_meta, visitor, include_missing)`
(lines 127-165): `files` is the copy of `meta.files` in the order in which the
loop visits it. -/
def reference_segment (dir : directory) (files : List String) (visitor : Nat → String → Bool)
    (include_missing : Bool) : Bool × reference_state :=
  -- if (files.empty()) return true;
  if files.isEmpty then (true, { dir := dir, visitor_calls := 0, trace := [] })
  else
    reference_files_loop visitor include_missing files
      { dir := dir, visitor_calls := 0, trace := [ref_event.attribute] }

end directory_utils

/-- The existence checks, ref additions and visitor calls among events. -/
def observable_events (trace : List ref_event) : List ref_event :=
  trace.filter (fun e => decide (e ≠ ref_event.attribute))

/-- Whether an event is a visitor call that answered false. -/
def ref_event.is_refusal : ref_event → Bool
  | .visitor_call _ answer => !answer
  | _ => false

/-- A run of `reference` that started with the events `start` stopped at the
first visitor call that answered false: when it returned true no event added
is such a call; when it returned false such a call is the last event added
and the only one. -/
def stops_at_refusal (start : List ref_event) (r : Bool × reference_state) : Prop :=
  ∃ added, r.2.trace = start ++ added ∧
    (r.1 = true → ∀ e ∈ added, e.is_refusal = false) ∧
    (r.1 = false → ∃ before name, added = before ++ [ref_event.visitor_call name false] ∧
      ∀ e ∈ before, e.is_refusal = false)

/-! ## `utf8_utils` (utils/utf8_utils.hpp, exercised by
tests/utils/utf8_utils_test.cpp) -/

namespace utf8_utils

/-- Modelled from the spec: `utf8_utils::MAX_CODE_POINT`, whose header is missing
(the spec calls the functions of that header "UTF-8 helpers"; the test
`static_const` fixes the value). -/
def MAX_CODE_POINT : Nat := 0x10FFFF

/-- Modelled from the spec: `utf8_utils::utf32_to_utf8(cp, buf)`, whose header is
missing: the bytes written to `buf`, the UTF-8 encoding of the code point in
one to four bytes. -/
def utf32_to_utf8 (cp : Nat) : List Nat :=
  if cp < 0x80 then [cp]
  else if cp < 0x800 then [0xC0 + cp / 64, 0x80 + cp % 64]
  else if cp < 0x10000 then [0xE0 + cp / 4096, 0x80 + cp / 64 % 64, 0x80 + cp % 64]
  else [0xF0 + cp / 262144, 0x80 + cp / 4096 % 64, 0x80 + cp / 64 % 64, 0x80 + cp % 64]

/-- Modelled from the spec: `utf8_utils::next(begin)`, whose header is missing:
the code point decoded at the cursor and the bytes after it (the cursor
afterwards), by the lead byte's length class; `none` when the sequence would
run past the end of the bytes. -/
def next : List Nat → Option (Nat × List Nat)
  | [] => none
  | b0 :: rest =>
    if b0 / 32 = 6 then
      match rest with
      | b1 :: r => some (b0 % 32 * 64 + b1 % 64, r)
      | _ => none
    else if b0 / 16 = 14 then
      match rest with
      | b1 :: b2 :: r => some (b0 % 16 * 4096 + b1 % 64 * 64 + b2 % 64, r)
      | _ => none
    else if b0 / 8 = 30 then
      match rest with
      | b1 :: b2 :: b3 :: r =>
        some (b0 % 8 * 262144 + b1 % 64 * 4096 + b2 % 64 * 64 + b3 % 64, r)
      | _ => none
    else some (b0, rest)

/-- Modelled from the spec: `utf8_utils::next_checked(begin, end)`, whose header
is missing: as `next`, but `none` (the invalid code point) also for a lead
byte of no length class and for a continuation byte that is not of the form
`10xxxxxx`. -/
def next_checked : List Nat → Option (Nat × List Nat)
  | [] => none
  | b0 :: rest =>
    if b0 < 0x80 then some (b0, rest)
    else if b0 / 32 = 6 then
      match rest with
      | b1 :: r => if b1 / 64 = 2 then some (b0 % 32 * 64 + b1 % 64, r) else none
      | _ => none
    else if b0 / 16 = 14 then
      match rest with
      | b1 :: b2 :: r =>
        if b1 / 64 = 2 ∧ b2 / 64 = 2 then
          some (b0 % 16 * 4096 + b1 % 64 * 64 + b2 % 64, r)
        else none
      | _ => none
    else if b0 / 8 = 30 then
      match rest with
      | b1 :: b2 :: b3 :: r =>
        if b1 / 64 = 2 ∧ b2 / 64 = 2 ∧ b3 / 64 = 2 then
          some (b0 % 8 * 262144 + b1 % 64 * 4096 + b2 % 64 * 64 + b3 % 64, r)
        else none
      | _ => none
    else none

/-- The loop of `utf8_to_utf32`: `next` until the cursor reaches the end, for at
most `fuel` code points (every call of `next` consumes a byte, so the number
of bytes is enough). -/
def utf8_to_utf32_loop : Nat → List Nat → List Nat
  | 0, _ => []
  | _ + 1, [] => []
  | fuel + 1, b :: rest =>
    match next (b :: rest) with
    | some (cp, after) => cp :: utf8_to_utf32_loop fuel after
    | none => []

/-- Modelled from the spec: `utf8_utils::utf8_to_utf32(str, out)`, whose header is
missing: the code points handed to the output iterator. -/
def utf8_to_utf32 (str : List Nat) : List Nat := utf8_to_utf32_loop str.length str

/-- The loop of `utf8_to_utf32_checked`: the returned flag and the code points
handed to the output iterator. -/
def utf8_to_utf32_checked_loop : Nat → List Nat → Bool × List Nat
  | 0, bytes => (bytes.isEmpty, [])
  | _ + 1, [] => (true, [])
  | fuel + 1, b :: rest =>
    match next_checked (b :: rest) with
    | some (cp, after) =>
      ((utf8_to_utf32_checked_loop fuel after).1, cp :: (utf8_to_utf32_checked_loop fuel after).2)
    | none => (false, [])

/-- Modelled from the spec: `utf8_utils::utf8_to_utf32_checked(str, out)`, whose
header is missing: false as soon as `next_checked` finds an invalid code
point. -/
def utf8_to_utf32_checked (str : List Nat) : Bool × List Nat :=
  utf8_to_utf32_checked_loop str.length str

/-- The well-formed UTF-8 byte string that encodes a sequence of code points. -/
def encode : List Nat → List Nat
  | [] => []
  | cp :: rest => utf32_to_utf8 cp ++ encode rest

end utf8_utils

/-! ## Concrete inputs -/

/-- A writer holding three documents, with nothing masked and no file
tracked. -/
def sample_writer : segment_writer :=
  { docs_mask_ := ∅, num_docs_cached_ := 3, norm_fields_ := ∅, fields_ := ∅,
    columns_ := [], dir_ := { files_ := ∅, track_open_ := false } }

/-- A `field_data` whose state is its recorded features and its `empty()` flag,
and whose `invert` accepts every token stream and records the features it is
given. -/
def sample_field_ops : field_data_ops (flags × Bool) Unit Unit :=
  { empty := fun s => s.2, features := fun s => s.1,
    invert := fun s _ f _ _ => (true, (s.1 ∪ f, false)) }

/-- A columnstore reader that has a value for every field and document. -/
def sample_columnstore : columnstore_reader Unit :=
  { values := fun _ _ out => (true, 1 :: out), visit := fun _ _ => true }

/-- A segment of three documents, version 1. -/
def sample_segment : segment_meta :=
  { name := "_1", version := 1, docs_count := 3, files := ∅ }

/-- An open in which document 2 is masked, the field reader prepares, the
segment has a columnstore whose reader fails to prepare, and the column-meta
reader fails to prepare. -/
def sample_env_no_columns : open_env Unit Unit :=
  { docs_mask := {2}, field_reader := (), field_reader_prepare := true,
    has_columnstore := true, columnstore := sample_columnstore, columnstore_prepare := false,
    column_meta_prepare := none, column_meta_entries := [] }

/-- An open in which everything prepares and the column-meta reader delivers
two columns of the same name. -/
def sample_env_duplicate_columns : open_env Unit Unit :=
  { docs_mask := ∅, field_reader := (), field_reader_prepare := true,
    has_columnstore := true, columnstore := sample_columnstore, columnstore_prepare := true,
    column_meta_prepare := some 2,
    column_meta_entries := [{ name := "a", id := 0 }, { name := "a", id := 1 }] }

/-- An open of a segment whose mask file lists the ids 0 and 1. -/
def sample_env_wide_mask : open_env Unit Unit :=
  { docs_mask := {0, 1}, field_reader := (), field_reader_prepare := true,
    has_columnstore := false, columnstore := sample_columnstore, columnstore_prepare := false,
    column_meta_prepare := none, column_meta_entries := [] }

/-- A segment of one document, version 1. -/
def sample_segment_one_doc : segment_meta :=
  { name := "_2", version := 1, docs_count := 1, files := ∅ }

/-- A segment-meta on entry to `flush` that already names a stale file. -/
def sample_stale_segment : segment_meta :=
  { name := "_1", version := 1, docs_count := 0, files := {"stale"} }

/-- A run of `flush` in which the stored-fields writer creates `_1.fd` and
reports a failure, and every other sub-writer succeeds. -/
def sample_flush_sf_fails : flush_env :=
  { sf_writer := { creates := [("_1.fd", true)], outcome := sub_outcome.failed },
    col_writer := { creates := [("_1.cs", true)], outcome := sub_outcome.ok },
    col_meta_writer := { creates := [("_1.cm", true)], outcome := sub_outcome.ok },
    field_writer := { creates := [("_1.tm", true), ("_1.ti", true)], outcome := sub_outcome.ok },
    swap_throws := false,
    segment_meta_writer := { creates := [("_1.sm", true)], outcome := sub_outcome.ok },
    segment_meta_filename := "_1.sm" }

/-- A run of `flush` in which the segment-meta writer creates `_1.sm` and then
throws, and every other sub-writer succeeds. -/
def sample_flush_meta_throws : flush_env :=
  { sf_writer := { creates := [("_1.fd", true)], outcome := sub_outcome.ok },
    col_writer := { creates := [("_1.cs", true)], outcome := sub_outcome.ok },
    col_meta_writer := { creates := [("_1.cm", true)], outcome := sub_outcome.ok },
    field_writer := { creates := [("_1.tm", true), ("_1.ti", true)], outcome := sub_outcome.ok },
    swap_throws := false,
    segment_meta_writer := { creates := [("_1.sm", true)], outcome := sub_outcome.threw },
    segment_meta_filename := "_1.sm" }

/-- A run of `flush` in which every sub-writer succeeds. -/
def sample_flush_ok : flush_env :=
  { sf_writer := { creates := [("_1.fd", true)], outcome := sub_outcome.ok },
    col_writer := { creates := [("_1.cs", true)], outcome := sub_outcome.ok },
    col_meta_writer := { creates := [("_1.cm", true)], outcome := sub_outcome.ok },
    field_writer := { creates := [("_1.tm", true), ("_1.ti", true)], outcome := sub_outcome.ok },
    swap_throws := false,
    segment_meta_writer := { creates := [("_1.sm", true)], outcome := sub_outcome.ok },
    segment_meta_filename := "_1.sm" }

/-- A writer holding two documents and one column. -/
def sample_writer_one_column : segment_writer :=
  { docs_mask_ := ∅, num_docs_cached_ := 2, norm_fields_ := ∅, fields_ := ∅,
    columns_ := [("c", 0)], dir_ := { files_ := ∅, track_open_ := false } }

/-- A directory in which every file exists at the first `exists` call and is
gone from the second call on; no file is referenced yet. -/
def sample_directory_race : directory :=
  { answers := fun k _ => (true, decide (k = 0)), exists_calls := 0, file_refs := ∅ }

/-- A directory whose `exists` calls succeed and report every file as present;
no file is referenced yet. -/
def sample_directory_steady : directory :=
  { answers := fun _ _ => (true, true), exists_calls := 0, file_refs := ∅ }

/-- A segment meta with the version of `sample_segment` and everything else
different. -/
def sample_segment_same_version : segment_meta :=
  { name := "_9", version := 1, docs_count := 99, files := {"_9.doc"} }

/-- A segment meta with a later version than `sample_segment`. -/
def sample_segment_next_version : segment_meta :=
  { name := "_1", version := 2, docs_count := 3, files := ∅ }

/-- An index-meta reader that finds `segments_2`, whose index meta references
`_1.sm` and `_1.doc`. -/
def sample_index_meta_source : index_meta_source :=
  { last_segments_file := some "segments_2", visit_files := fun _ => ["_1.sm", "_1.doc"] }

/-- An index-meta reader that finds no segments file. -/
def sample_index_meta_missing : index_meta_source :=
  { last_segments_file := none, visit_files := fun _ => ["_1.sm", "_1.doc"] }

/-- Prepared filters named by how they were made. -/
inductive sample_prepared where
  | empty
  | term_query (field : String) (term : String)
  | levenshtein (field : String) (term : String) (limit : Nat) (description : Nat)
deriving DecidableEq, Repr

/-- The functions behind `by_edit_distance::prepare`, each recording its
arguments. -/
def sample_prepare_ops : prepare_ops Unit Unit Unit String Nat sample_prepared :=
  { empty := sample_prepared.empty,
    term_query_make := fun _ _ _ field term => sample_prepared.term_query field term,
    prepare_levenshtein_filter := fun _ _ _ field term limit d =>
      sample_prepared.levenshtein field term limit d }

/-- The functions behind `by_edit_distance::visit` over a reader that is its
list of terms: the exact visit finds the term if the reader has it, the
automaton visit reports every term of the reader. -/
def sample_visit_ops : visit_ops (List String) String Nat :=
  { term_query_visit := fun reader term => reader.filter (fun t => t == term),
    automaton_visit := fun _ reader _ => reader }

/-- A provider with descriptions for the distances 1 to 4 only. -/
def sample_provider : Nat → Bool → Option Nat :=
  fun max_distance _ => if max_distance ≤ 4 then some max_distance else none

/-- A file system that is the set of its paths and a log of the `file_utils`
calls made on it; no other process holds a lock, so `verify_lock_file` finds
no valid lock file. -/
def sample_file_utils : file_utils_ops (Finset String × List String) Unit :=
  { exists_path := fun fs p => ((true, decide (p ∈ fs.1)), (fs.1, fs.2 ++ ["exists " ++ p])),
    mkdir := fun fs p => (true, (insert p fs.1, fs.2 ++ ["mkdir " ++ p])),
    verify_lock_file := fun fs p => (false, (fs.1, fs.2 ++ ["verify " ++ p])),
    remove := fun fs p => (decide (p ∈ fs.1), (fs.1.erase p, fs.2 ++ ["remove " ++ p])),
    create_lock_file := fun fs p => (some (), (insert p fs.1, fs.2 ++ ["create " ++ p])) }

/-- A lock on `write.lock` in the directory `idx` that is not held. -/
def sample_lock_free : fs_lock Unit := { dir_ := "idx", file_ := "write.lock", handle_ := none }

/-- The same lock, held. -/
def sample_lock_held : fs_lock Unit :=
  { dir_ := "idx", file_ := "write.lock", handle_ := some () }

/-- A `file_utils::fwrite` that writes everything it is asked to. -/
def sample_fwrite_all : Nat → Nat → Nat := fun _ len => len

/-- A `file_utils::fwrite` that writes at most two bytes per call. -/
def sample_fwrite_short : Nat → Nat → Nat := fun _ len => min len 2

/-- An open in which the column-meta reader delivers the columns `b` and `a`,
in this order. -/
def sample_env_unsorted_columns : open_env Unit Unit :=
  { docs_mask := ∅, field_reader := (), field_reader_prepare := true,
    has_columnstore := true, columnstore := sample_columnstore, columnstore_prepare := true,
    column_meta_prepare := some 2,
    column_meta_entries := flush_column_meta [("b", 0), ("a", 1)] }

/-- Per-document members after two stored fields of a document, with the
context of document 1 recorded. -/
def sample_doc_state : doc_state String :=
  { header_doc_fields := [4, 9],
    docs_context_ := fun id => if id = 1 then some "ctx1" else none }

/-- A writer in the middle of a document: the slots 3 and 5 are registered for
norms. -/
def sample_writer_mid_document : segment_writer :=
  { docs_mask_ := ∅, num_docs_cached_ := 2, norm_fields_ := {3, 5}, fields_ := {feature.norm},
    columns_ := [], dir_ := { files_ := ∅, track_open_ := false } }

/-- Filters over a base part that is the field and term as one string, hashed
by its length. -/
def sample_filter_ops : filter_base_ops String :=
  { base_equals := fun a b => a == b, base_hash := fun a => a.length,
    std_hash_byte := fun b => b, std_hash_bool := fun b => if b then 1 else 0 }

/-- A visitor that accepts every ref but the one to `_1.doc`. -/
def sample_visitor : Nat → String → Bool := fun _ name => name != "_1.doc"

/-- A file of the bytes 1, 2, 3 whose reads are complete and whose seeks
succeed. -/
def sample_file_io : file_io :=
  { fseek_fails := fun _ => false,
    fread := fun _ pos len => (([1, 2, 3] : List Nat).drop pos).take len }

/-- The same file with a failing first seek. -/
def sample_file_io_seek_fails : file_io :=
  { fseek_fails := fun _ => true,
    fread := fun _ pos len => (([1, 2, 3] : List Nat).drop pos).take len }

/-- A stream over a file of three bytes, positioned at 1, whose native handle is
at 0. -/
def sample_input : fs_index_input := { pos_ := 1, handle_ := { size := 3, pos := 0 } }

open masked_docs_iterator in
/-- One call of `next()` followed by the remaining calls, on an iterator with
`f` ids left: the values observed are the unmasked ids of `[next_, end_)`. -/
theorem observed_aux (f : Nat) :
    ∀ (it : masked_docs_iterator) (n : Nat), it.end_ - it.next_ = f →
      it.end_ < DOC_ID_MOD → f ≤ n →
      (match nextLoop f it with
        | (true, it1) => it1.value :: observed n it1
        | (false, _) => []) =
      (List.range' it.next_ f).filter (fun d => decide (d ∉ it.docs_mask_)) := by
  induction f with
  | zero => intro it n _ _ _; simp [nextLoop]
  | succ f ih =>
    intro it n hf he hn
    have hlt : it.next_ < it.end_ := by omega
    have hwrap : (it.next_ + 1) % DOC_ID_MOD = it.next_ + 1 := by
      apply Nat.mod_eq_of_lt; omega
    simp only [nextLoop, hlt, if_true, hwrap]
    by_cases hm : it.next_ ∈ it.docs_mask_
    · simp only [hm, if_true]
      have := ih { it with current_ := it.next_, next_ := it.next_ + 1 } n
        (by simp; omega) he (by omega)
      simp only at this
      rw [this, List.range'_succ]
      simp [hm]
    · simp only [hm, if_false]
      obtain ⟨m, rfl⟩ : ∃ m, n = m + 1 := ⟨n - 1, by omega⟩
      have := ih { it with current_ := it.next_, next_ := it.next_ + 1 } m
        (by simp; omega) he (by omega)
      simp only at this
      rw [List.range'_succ]
      simp only [observed, next, value]
      have hfe : it.end_ - (it.next_ + 1) = f := by omega
      simp only [hfe]
      simp only [value] at this
      rw [this]
      simp [hm]

/-! ### C1: `docs_iterator()` -/

/-- An iterator made by `docs_iterator()` whose range end fits in 32 bits yields
the unmasked ids of its range, for any number of `next()` calls beyond the
range length. -/
theorem observed_docs_iterator (minDoc docs_count : Nat) (docs_mask : Finset Nat) (calls : Nat)
    (hfit : minDoc + docs_count < DOC_ID_MOD) (hcalls : docs_count < calls) :
    masked_docs_iterator.observed calls (docs_iterator minDoc docs_count docs_mask) =
      live_doc_ids minDoc docs_count docs_mask := by
  obtain ⟨n, rfl⟩ : ∃ n, calls = n + 1 := ⟨calls - 1, by omega⟩
  have h64 : (minDoc + docs_count) % U64_MOD = minDoc + docs_count := by
    apply Nat.mod_eq_of_lt; simp only [DOC_ID_MOD, U64_MOD] at *; omega
  have h32 : (minDoc + docs_count) % DOC_ID_MOD = minDoc + docs_count :=
    Nat.mod_eq_of_lt hfit
  have haux := observed_aux docs_count (docs_iterator minDoc docs_count docs_mask) n
    (by simp [docs_iterator, masked_docs_iterator.mk_iterator, h64, h32])
    (by simp [docs_iterator, masked_docs_iterator.mk_iterator, h64, h32]; exact hfit)
    (by omega)
  have hlen : (docs_iterator minDoc docs_count docs_mask).end_ -
      (docs_iterator minDoc docs_count docs_mask).next_ = docs_count := by
    simp [docs_iterator, masked_docs_iterator.mk_iterator, h64, h32]
  simp only [masked_docs_iterator.observed, masked_docs_iterator.next, hlen]
  rw [haux]
  simp [live_doc_ids, docs_iterator, masked_docs_iterator.mk_iterator]

/-- The ids `live_doc_ids` lists are strictly ascending. -/
theorem live_doc_ids_sorted (minDoc docs_count : Nat) (docs_mask : Finset Nat) :
    List.Sorted (fun a b => a < b) (live_doc_ids minDoc docs_count docs_mask) := by
  unfold live_doc_ids List.Sorted
  exact List.Pairwise.filter _ (List.pairwise_lt_range' minDoc docs_count)

/-- Membership in `live_doc_ids`. -/
theorem mem_live_doc_ids (minDoc docs_count : Nat) (docs_mask : Finset Nat) (d : Nat) :
    d ∈ live_doc_ids minDoc docs_count docs_mask ↔
      (minDoc ≤ d ∧ d < minDoc + docs_count) ∧ d ∉ docs_mask := by
  simp [live_doc_ids, List.mem_filter, List.mem_range'_1]

/-- C1 (as amended): for every `docs_count` with `MIN_DOC + docs_count` below
`2^32` and every `docs_mask`, the values observed after the successful `next()`
calls of `docs_iterator()` are exactly the ids of `[MIN_DOC, MIN_DOC+docs_count)`
that are not in `docs_mask` (an id is observed if and only if it is one of
them), each once and in strictly ascending order; no id of `docs_mask` is
observed; and the call after the last observed value returns false. -/
theorem C1_docs_iterator_yields_live_ids (minDoc docs_count : Nat) (docs_mask : Finset Nat)
    (calls : Nat) (hfit : minDoc + docs_count < DOC_ID_MOD) (hcalls : docs_count < calls) :
    let seen := masked_docs_iterator.observed calls (docs_iterator minDoc docs_count docs_mask)
    seen = live_doc_ids minDoc docs_count docs_mask ∧
    (∀ d, d ∈ seen ↔ (minDoc ≤ d ∧ d < minDoc + docs_count) ∧ d ∉ docs_mask) ∧
    List.Sorted (fun a b => a < b) seen ∧ seen.Nodup ∧
    (∀ d ∈ seen, d ∉ docs_mask) ∧
    seen.length < calls := by
  intro seen
  have hseen : seen = live_doc_ids minDoc docs_count docs_mask :=
    observed_docs_iterator minDoc docs_count docs_mask calls hfit hcalls
  have hsorted := live_doc_ids_sorted minDoc docs_count docs_mask
  refine ⟨hseen, ?_, ?_, ?_, ?_, ?_⟩
  · intro d; rw [hseen]; exact mem_live_doc_ids minDoc docs_count docs_mask d
  · rw [hseen]; exact hsorted
  · rw [hseen]; exact hsorted.nodup
  · intro d hd
    rw [hseen] at hd
    exact ((mem_live_doc_ids minDoc docs_count docs_mask d).1 hd).2
  · rw [hseen]
    have hle : (live_doc_ids minDoc docs_count docs_mask).length ≤ docs_count := by
      unfold live_doc_ids
      calc ((List.range' minDoc docs_count).filter _).length
          ≤ (List.range' minDoc docs_count).length := List.length_filter_le _ _
        _ = docs_count := List.length_range' _ _ _
    omega

/-- C1, a concrete run: three documents from id 1 with document 2 masked, four
calls of `next()`: the values observed are 1 and 3. -/
theorem C1_docs_iterator_yields_live_ids_witness :
    masked_docs_iterator.observed 4 (docs_iterator 1 3 {2}) = [1, 3] ∧
    masked_docs_iterator.observed 4 (docs_iterator 1 3 {2}) = live_doc_ids 1 3 {2} :=
  ⟨by decide,
   (C1_docs_iterator_yields_live_ids 1 3 {2} 4 (by decide) (by decide)).1⟩

/-- C1 as stated fails: with `MIN_DOC = 1`, `docs_count = 2^32` and an empty
mask the range end narrows to 1, the first `next()` returns false and nothing
is observed, although id 1 lies in `[1, 1 + 2^32)` and is not masked. -/
theorem C1_counterexample :
    (docs_iterator 1 4294967296 ∅).end_ = 1 ∧
    ((docs_iterator 1 4294967296 ∅).next).1 = false ∧
    masked_docs_iterator.observed 2 (docs_iterator 1 4294967296 ∅) = [] ∧
    1 ∈ live_doc_ids 1 4294967296 ∅ ∧
    masked_docs_iterator.observed 2 (docs_iterator 1 4294967296 ∅) ≠
      live_doc_ids 1 4294967296 ∅ := by
  have hobs : masked_docs_iterator.observed 2 (docs_iterator 1 4294967296 ∅) = [] := by
    decide
  have hmem : 1 ∈ live_doc_ids 1 4294967296 ∅ := by
    rw [mem_live_doc_ids]; simp
  refine ⟨by decide, by decide, hobs, hmem, ?_⟩
  intro h
  rw [hobs] at h
  rw [← h] at hmem
  simp at hmem

/-! ### C2: `segment_writer::remove` -/

/-- The upper bound of `remove` is checked: an id at or above
`MIN_DOC + num_docs` is refused and the mask is left as it was. -/
theorem remove_refuses_above_range (minDoc : Nat) (w : segment_writer) (doc_id : Nat)
    (h : minDoc + w.num_docs_cached_ ≤ doc_id) :
    segment_writer.remove minDoc w doc_id = (false, w) := by
  have hnot : ¬ doc_id < minDoc + w.num_docs_cached_ := by omega
  simp [segment_writer.remove, hnot]

/-- C2 (the code against the claim): `remove` has no lower bound. For every
`MIN_DOC > 0` and every writer whose mask does not hold it yet, `remove(0)`
returns true and puts the reserved invalid id 0, which lies below the segment
range, into the doc mask. -/
theorem C2_remove_accepts_id_below_min (minDoc : Nat) (w : segment_writer)
    (hmin : 0 < minDoc) (hnew : 0 ∉ w.docs_mask_) :
    (segment_writer.remove minDoc w 0).1 = true ∧
    (segment_writer.remove minDoc w 0).2.docs_mask_ = insert 0 w.docs_mask_ ∧
    (segment_writer.remove minDoc w 0).2.docs_mask_ ≠ w.docs_mask_ ∧
    ¬ (minDoc ≤ 0 ∧ 0 < minDoc + w.num_docs_cached_) := by
  have hlt : 0 < minDoc + w.num_docs_cached_ := by omega
  simp only [segment_writer.remove, hlt, if_true, hnew, if_false]
  refine ⟨trivial, trivial, ?_, by omega⟩
  intro h
  apply hnew
  rw [← h]
  exact Finset.mem_insert_self 0 _

/-- C2, a concrete run: `MIN_DOC = 1`, a writer holding three documents and an
empty mask; `remove(0)` returns true and the mask becomes `{0}`. -/
theorem C2_remove_accepts_id_below_min_witness :
    (segment_writer.remove 1 sample_writer 0).1 = true ∧
    (segment_writer.remove 1 sample_writer 0).2.docs_mask_ = {0} :=
  ⟨(C2_remove_accepts_id_below_min 1 sample_writer (by decide) (by decide)).1, by decide⟩

/-! ### C3: the scoring key of the Levenshtein visitor -/

/-- Where the matched term is not empty and both lengths fit in 32 bits, the key
handed to the collector is the one the specification writes (both before the
roundings of the float arithmetic). -/
theorem visit_key_eq_spec (distance value_len query_len : Nat)
    (hv : 0 < value_len) (hv32 : value_len < U32_MOD) (hq32 : query_len < U32_MOD) :
    levenshtein_terms_visitor.visit_key distance value_len query_len =
      some (spec_similarity distance value_len query_len) := by
  have hsize : levenshtein_terms_visitor.visit_size value_len query_len =
      max 1 (min value_len query_len) := by
    simp only [levenshtein_terms_visitor.visit_size, levenshtein_terms_visitor.utf8_term_size_,
      Nat.mod_eq_of_lt hv32, Nat.mod_eq_of_lt hq32]
    omega
  have hpos : max 1 (min value_len query_len) ≠ 0 := by omega
  simp [levenshtein_terms_visitor.visit_key, similarity, hsize, spec_similarity, hpos]

/-- C3 (the code against the claim): for the empty matched term (UTF-8 length
0) the size `visit()` passes to `::similarity` is `min(0, max(1, len(query)))`,
which is 0 for every query term: the call violates `assert(size)` and divides
by zero, where the claim's denominator `max(1, min(0, len(query)))` is 1 and
its key is `1 - distance`. -/
theorem C3_empty_term_divides_by_zero (distance query_len : Nat) :
    levenshtein_terms_visitor.visit_size 0 query_len = 0 ∧
    levenshtein_terms_visitor.visit_key distance 0 query_len = none ∧
    max 1 (min 0 query_len) = 1 ∧
    spec_similarity distance 0 query_len = 1 - (distance : ℚ) := by
  refine ⟨?_, ?_, ?_, ?_⟩
  · simp [levenshtein_terms_visitor.visit_size]
  · simp [levenshtein_terms_visitor.visit_key, levenshtein_terms_visitor.visit_size, similarity]
  · simp
  · simp [spec_similarity]

/-! ### C4: `segment_writer::index_field` -/

/-- C4: for a slot that already holds indexed data (`slot.empty()` is false),
`index_field` returns false whenever the supplied features are not a subset of
the slot's recorded features; `slot.invert` is then not called (the slot is as
before, whatever `invert` would do), the slot is not added to `norm_fields_`
and the accumulated segment features `fields_` are unchanged: the writer is as
before. -/
theorem C4_index_field_rejects_non_subset {σ τ β : Type} (ops : field_data_ops σ τ β)
    (w : segment_writer) (sid : Nat) (slot : σ) (doc_id : Nat) (tokens : τ)
    (features : flags) (boost : β)
    (hused : ops.empty slot = false) (hsub : ¬ features ⊆ ops.features slot) :
    let r := segment_writer.index_field ops w sid slot doc_id tokens features boost
    r.ok = false ∧ r.invert_calls = 0 ∧ r.slot = slot ∧ r.writer = w ∧
    r.writer.norm_fields_ = w.norm_fields_ ∧ r.writer.fields_ = w.fields_ := by
  simp [segment_writer.index_field, hused, hsub]

/-- C4, a concrete run: a slot that recorded `{frequency}` and whose `invert`
would accept anything is offered `{frequency, norm}`: the call fails, `invert`
is not called, the slot is not registered for norms and the segment features
stay empty. -/
theorem C4_index_field_rejects_non_subset_witness :
    (segment_writer.index_field sample_field_ops sample_writer 7 ({feature.frequency}, false)
      1 () {feature.frequency, feature.norm} ()).ok = false ∧
    (segment_writer.index_field sample_field_ops sample_writer 7 ({feature.frequency}, false)
      1 () {feature.frequency, feature.norm} ()).invert_calls = 0 ∧
    (segment_writer.index_field sample_field_ops sample_writer 7 ({feature.frequency}, false)
      1 () {feature.frequency, feature.norm} ()).writer = sample_writer :=
  have h := C4_index_field_rejects_non_subset sample_field_ops sample_writer 7
    ({feature.frequency}, false) 1 () {feature.frequency, feature.norm} () rfl (by decide)
  ⟨h.1, h.2.1, h.2.2.2.1⟩

/-! ### C5: column metadata in `segment_reader::open` -/

/-- `open` returns the empty reader exactly when the field reader fails to
prepare. -/
theorem open_eq_none_iff {F V : Type} (env : open_env F V) (segment : segment_meta) :
    segment_reader_impl.open env segment = none ↔ env.field_reader_prepare = false := by
  cases h : env.field_reader_prepare <;> simp [segment_reader_impl.open, h]

/-- C5 (as amended): if the column-meta reader fails to prepare during `open`
and the field reader prepared, `read_columns_meta` returns false and `open`
returns a non-empty reader that has no columns: `columns()` is empty and
`column(name)` is null for every name. -/
theorem C5_open_without_column_meta {F V : Type} (env : open_env F V) (segment : segment_meta)
    (hfield : env.field_reader_prepare = true) (hmeta : env.column_meta_prepare = none) :
    (∀ st, (read_columns_meta env.column_meta_prepare env.column_meta_entries st).1 = false) ∧
    ∃ r, segment_reader_impl.open env segment = some r ∧
      r.columns = [] ∧ (∀ name, r.column name = none) ∧
      r.docs_count = segment.docs_count := by
  refine ⟨fun st => by simp [read_columns_meta, hmeta], ?_⟩
  simp [segment_reader_impl.open, hfield, hmeta, read_columns_meta,
    segment_reader_impl.columns, segment_reader_impl.column, segment_reader_impl.docs_count]
  split <;> simp

/-- C5, a concrete run: the column-meta reader fails to prepare and `open` gives
a reader without columns. -/
theorem C5_open_without_column_meta_witness :
    ∃ r, segment_reader_impl.open sample_env_no_columns sample_segment = some r ∧
      r.columns = [] ∧ (∀ name, r.column name = none) ∧ r.docs_count = 3 :=
  (C5_open_without_column_meta sample_env_no_columns sample_segment rfl rfl).2

/-- C5 as stated fails: when the column-meta reader fails to prepare `open`
returns a non-empty reader, and so it does when two columns carry the same
name (`read_columns_meta` returns false in both cases). -/
theorem C5_counterexample :
    (read_columns_meta sample_env_no_columns.column_meta_prepare
      sample_env_no_columns.column_meta_entries
      { columns := [], id_to_column := [], name_to_column := [] }).1 = false ∧
    (segment_reader_impl.open sample_env_no_columns sample_segment).isSome = true ∧
    (read_columns_meta sample_env_duplicate_columns.column_meta_prepare
      sample_env_duplicate_columns.column_meta_entries
      { columns := [], id_to_column := [], name_to_column := [] }).1 = false ∧
    (segment_reader_impl.open sample_env_duplicate_columns sample_segment).isSome = true := by
  refine ⟨by decide, by decide, by decide, by decide⟩

/-! ### C6, C7: `segment_writer::flush` -/

/-- A sub-writer's `create` calls add their names to the tracked set and remove
nothing from it. -/
theorem run_sub_writer_files (d : tracking_directory) (r : sub_writer_run) :
    (segment_writer.run_sub_writer d r).files_ = d.files_ ∪ r.names := by
  obtain ⟨creates, outcome⟩ := r
  simp only [segment_writer.run_sub_writer, sub_writer_run.names]
  induction creates generalizing d with
  | nil => simp
  | cons c rest ih =>
    simp only [List.foldl_cons, List.map_cons, List.toFinset_cons]
    rw [ih]
    cases hc : c.2 <;> simp [tracking_directory.create, Finset.insert_eq, Finset.union_assoc,
      Finset.union_comm, Finset.union_left_comm]

/-- The tracked set right before the swap: what was tracked on entry and every
name the four sub-writers created. -/
theorem dir_before_swap_files (env : flush_env) (w : segment_writer) :
    (segment_writer.dir_before_swap env w).files_ =
      w.dir_.files_ ∪ env.sf_writer.names ∪ env.col_writer.names ∪
        (if w.columns_.isEmpty then ∅ else env.col_meta_writer.names) ∪
        env.field_writer.names := by
  unfold segment_writer.dir_before_swap
  by_cases hc : w.columns_.isEmpty <;> simp [hc, run_sub_writer_files]

/-- C6: after `flush` returns true, `meta.files` is exactly the set the writer's
tracking directory held right before the swap (the names tracked on entry and
those the stored-fields, columnstore, column-meta and field writers created),
whatever `meta.files` held on entry, and `meta.docs_count` is the number of
documents accumulated in the segment. -/
theorem C6_flush_publishes_tracked_files (env : flush_env) (w : segment_writer)
    (filename : String) (segment : segment_meta)
    (hok : (segment_writer.flush env w filename segment).ended = flush_exit.returned true) :
    (segment_writer.flush env w filename segment).segment.files =
      (segment_writer.dir_before_swap env w).files_ ∧
    (segment_writer.flush env w filename segment).segment.files =
      w.dir_.files_ ∪ env.sf_writer.names ∪ env.col_writer.names ∪
        (if w.columns_.isEmpty then ∅ else env.col_meta_writer.names) ∪
        env.field_writer.names ∧
    (segment_writer.flush env w filename segment).segment.docs_count = w.num_docs_cached_ := by
  rw [← dir_before_swap_files]
  revert hok
  simp only [segment_writer.flush, segment_writer.dir_before_swap,
    tracking_directory.swap_tracked]
  split_ifs <;> simp_all

/-- C6, a concrete run: every sub-writer succeeds on a writer with two documents
and one column; `flush` returns true, the stale name `meta.files` held on entry
is gone, and `meta.files` holds the five names created before the swap but not
the segment-meta file. -/
theorem C6_flush_publishes_tracked_files_witness :
    (segment_writer.flush sample_flush_ok sample_writer_one_column ""
      sample_stale_segment).ended = flush_exit.returned true ∧
    (segment_writer.flush sample_flush_ok sample_writer_one_column ""
      sample_stale_segment).segment.files = {"_1.fd", "_1.cs", "_1.cm", "_1.tm", "_1.ti"} ∧
    (segment_writer.flush sample_flush_ok sample_writer_one_column ""
      sample_stale_segment).segment.docs_count = 2 :=
  ⟨by decide, by decide,
   (C6_flush_publishes_tracked_files sample_flush_ok sample_writer_one_column ""
      sample_stale_segment (by decide)).2.2⟩

/-- C7 (as amended): `flush` inspects no sub-writer result. It returns false
only when the tracked-set swap fails; when no sub-writer throws and the swap
succeeds it returns true, also when a sub-writer reported a failure. An error
thrown by a sub-writer leaves `flush` without a return value, and the writer's
tracking set then holds every file created so far when the error comes from
the stored-fields, columnstore, column-meta or field writer; when it comes from
the segment-meta writer the files created before the swap are in `meta.files`
and the tracking set holds what the segment-meta writer created. -/
theorem C7_flush_sub_writer_failure (env : flush_env) (w : segment_writer)
    (filename : String) (segment : segment_meta) :
    let r := segment_writer.flush env w filename segment
    (r.ended = flush_exit.returned false → env.swap_throws = true) ∧
    (env.sf_writer.outcome ≠ sub_outcome.threw → env.col_writer.outcome ≠ sub_outcome.threw →
      (w.columns_.isEmpty = false → env.col_meta_writer.outcome ≠ sub_outcome.threw) →
      env.field_writer.outcome ≠ sub_outcome.threw → env.swap_throws = false →
      env.segment_meta_writer.outcome ≠ sub_outcome.threw →
      r.ended = flush_exit.returned true) ∧
    (env.sf_writer.outcome = sub_outcome.threw →
      r.ended = flush_exit.threw ∧
      r.writer.dir_.files_ = w.dir_.files_ ∪ env.sf_writer.names) ∧
    (env.sf_writer.outcome ≠ sub_outcome.threw → env.col_writer.outcome = sub_outcome.threw →
      r.ended = flush_exit.threw ∧
      r.writer.dir_.files_ = w.dir_.files_ ∪ env.sf_writer.names ∪ env.col_writer.names) ∧
    (env.sf_writer.outcome ≠ sub_outcome.threw → env.col_writer.outcome ≠ sub_outcome.threw →
      w.columns_.isEmpty = false → env.col_meta_writer.outcome = sub_outcome.threw →
      r.ended = flush_exit.threw ∧
      r.writer.dir_.files_ = w.dir_.files_ ∪ env.sf_writer.names ∪ env.col_writer.names ∪
        env.col_meta_writer.names) ∧
    (env.sf_writer.outcome ≠ sub_outcome.threw → env.col_writer.outcome ≠ sub_outcome.threw →
      (w.columns_.isEmpty = false → env.col_meta_writer.outcome ≠ sub_outcome.threw) →
      env.field_writer.outcome = sub_outcome.threw →
      r.ended = flush_exit.threw ∧
      r.writer.dir_.files_ = (segment_writer.dir_before_swap env w).files_) ∧
    (env.sf_writer.outcome ≠ sub_outcome.threw → env.col_writer.outcome ≠ sub_outcome.threw →
      (w.columns_.isEmpty = false → env.col_meta_writer.outcome ≠ sub_outcome.threw) →
      env.field_writer.outcome ≠ sub_outcome.threw → env.swap_throws = false →
      env.segment_meta_writer.outcome = sub_outcome.threw →
      r.ended = flush_exit.threw ∧
      r.segment.files = (segment_writer.dir_before_swap env w).files_ ∧
      r.writer.dir_.files_ = env.segment_meta_writer.names) := by
  intro r
  refine ⟨?_, ?_, ?_, ?_, ?_, ?_, ?_⟩
  · simp only [r, segment_writer.flush, tracking_directory.swap_tracked]
    split_ifs <;> simp_all
  · intro h1 h2 h3 h4 h5 h6
    simp only [r, segment_writer.flush, tracking_directory.swap_tracked]
    split_ifs <;> simp_all
  · intro h1
    simp [r, segment_writer.flush, h1, run_sub_writer_files]
  · intro h1 h2
    simp [r, segment_writer.flush, h1, h2, run_sub_writer_files]
  · intro h1 h2 h3 h4
    simp [r, segment_writer.flush, h1, h2, h3, h4, run_sub_writer_files]
  · intro h1 h2 h3 h4
    cases hc : w.columns_.isEmpty
    · simp [r, segment_writer.flush, segment_writer.dir_before_swap, h1, h2, hc, h3 hc, h4]
    · simp [r, segment_writer.flush, segment_writer.dir_before_swap, h1, h2, hc, h4]
  · intro h1 h2 h3 h4 h5 h6
    cases hc : w.columns_.isEmpty
    · simp [r, segment_writer.flush, segment_writer.dir_before_swap,
        tracking_directory.swap_tracked, h1, h2, hc, h3 hc, h4, h5, h6, run_sub_writer_files]
    · simp [r, segment_writer.flush, segment_writer.dir_before_swap,
        tracking_directory.swap_tracked, h1, h2, hc, h4, h5, h6, run_sub_writer_files]

/-- C7 as stated fails: when the stored-fields writer reports a failure `flush`
still returns true; when the segment-meta writer throws, `flush` does not
return false and the file `_1.fd` created earlier is no longer in the writer's
tracking set (it is in `meta.files`). -/
theorem C7_counterexample :
    sample_flush_sf_fails.sf_writer.outcome = sub_outcome.failed ∧
    (segment_writer.flush sample_flush_sf_fails sample_writer_one_column ""
      sample_stale_segment).ended = flush_exit.returned true ∧
    sample_flush_meta_throws.segment_meta_writer.outcome = sub_outcome.threw ∧
    (segment_writer.flush sample_flush_meta_throws sample_writer_one_column ""
      sample_stale_segment).ended ≠ flush_exit.returned false ∧
    "_1.fd" ∉ (segment_writer.flush sample_flush_meta_throws sample_writer_one_column ""
      sample_stale_segment).writer.dir_.files_ ∧
    "_1.fd" ∈ (segment_writer.flush sample_flush_meta_throws sample_writer_one_column ""
      sample_stale_segment).segment.files := by
  refine ⟨by decide, by decide, by decide, by decide, by decide, by decide⟩

/-! ### C8: `directory_utils::reference` -/

/-- C8: with `include_missing == false`, `reference(dir, name)` returns a
non-empty ref exactly when the existence check before and the one after the
ref is added both succeed and report the file as present, and that ref is a ref
to `name`; if the first check fails or reports absence the ref is empty and
`index_file_refs` is as before (one check was made); if the second check fails
or reports absence the ref is empty. With `include_missing == true` the result
is always a ref to `name`, registered in `index_file_refs`, and no existence
check is made. -/
theorem C8_reference_checks_existence (dir : directory) (name : String) :
    ((directory_utils.reference dir name false).1 ≠ none ↔
      dir.answers dir.exists_calls name = (true, true) ∧
      dir.answers (dir.exists_calls + 1) name = (true, true)) ∧
    ((directory_utils.reference dir name false).1 ≠ none →
      (directory_utils.reference dir name false).1 = some name ∧
      name ∈ (directory_utils.reference dir name false).2.file_refs) ∧
    (dir.answers dir.exists_calls name ≠ (true, true) →
      (directory_utils.reference dir name false).1 = none ∧
      (directory_utils.reference dir name false).2.file_refs = dir.file_refs ∧
      (directory_utils.reference dir name false).2.exists_calls = dir.exists_calls + 1) ∧
    (dir.answers (dir.exists_calls + 1) name ≠ (true, true) →
      (directory_utils.reference dir name false).1 = none) ∧
    ((directory_utils.reference dir name true).1 = some name ∧
      name ∈ (directory_utils.reference dir name true).2.file_refs ∧
      (directory_utils.reference dir name true).2.exists_calls = dir.exists_calls) := by
  simp only [directory_utils.reference, directory.exists_file, directory.add_ref]
  rcases h1 : dir.answers dir.exists_calls name with ⟨a1, b1⟩
  rcases h2 : dir.answers (dir.exists_calls + 1) name with ⟨a2, b2⟩
  cases a1 <;> cases b1 <;> cases a2 <;> cases b2 <;> simp [h2]

/-- C8, two concrete runs: a file that exists at the first check and is gone at
the second gets an empty ref (its name was added to `index_file_refs` in
between); a file that stays gets a ref to its name. -/
theorem C8_reference_checks_existence_witness :
    (directory_utils.reference sample_directory_race "_1.sm" false).1 = none ∧
    "_1.sm" ∈ (directory_utils.reference sample_directory_race "_1.sm" false).2.file_refs ∧
    (directory_utils.reference sample_directory_steady "_1.sm" false).1 = some "_1.sm" ∧
    (directory_utils.reference sample_directory_race "_1.sm" true).1 = some "_1.sm" :=
  ⟨(C8_reference_checks_existence sample_directory_race "_1.sm").2.2.2.1 (by decide),
   by decide, by decide,
   (C8_reference_checks_existence sample_directory_race "_1.sm").2.2.2.2.1⟩

/-! ### C9: `live_docs_count()` -/

/-- In general `live_docs_count()` is the difference of `docs_count()` and the
mask size modulo `2^64`. -/
theorem live_docs_count_mod {F V : Type} (r : segment_reader_impl F V) :
    ((r.live_docs_count : Nat) : Int) =
      ((r.docs_count : Int) - (r.docs_mask_.card : Int)) % (U64_MOD : Int) := by
  unfold segment_reader_impl.live_docs_count segment_reader_impl.docs_count
  have hpos : 0 < U64_MOD := by decide
  have hlt : r.docs_mask_.card % U64_MOD < U64_MOD := Nat.mod_lt _ hpos
  push_cast [Nat.cast_sub hlt.le]
  have : ((r.docs_count_ : Int) % U64_MOD + (U64_MOD - (r.docs_mask_.card : Int) % U64_MOD))
      = ((r.docs_count_ : Int) % U64_MOD - (r.docs_mask_.card : Int) % U64_MOD) + U64_MOD := by
    ring
  rw [this, Int.add_emod_self, ← Int.sub_emod]

/-- C9 (as amended): for every opened segment reader whose mask holds at most
`docs_count` ids, `live_docs_count()` equals `docs_count()` minus the number of
ids in `docs_mask` (`docs_count()` being the 64-bit count of the segment
meta). -/
theorem C9_live_docs_count {F V : Type} (env : open_env F V) (segment : segment_meta)
    (r : segment_reader_impl F V) (hopen : segment_reader_impl.open env segment = some r)
    (h64 : segment.docs_count < U64_MOD) (hmask : r.docs_mask_.card ≤ r.docs_count) :
    r.live_docs_count = r.docs_count - r.docs_mask_.card ∧
    r.live_docs_count + r.docs_mask_.card = r.docs_count ∧
    r.docs_count = segment.docs_count ∧ r.docs_mask_ = env.docs_mask := by
  have hfields : r.docs_count_ = segment.docs_count ∧ r.docs_mask_ = env.docs_mask := by
    revert hopen
    simp only [segment_reader_impl.open]
    split_ifs <;> intro h <;> simp at h <;> subst h <;> simp
  unfold segment_reader_impl.docs_count at hmask ⊢
  have hc : r.docs_count_ < U64_MOD := by rw [hfields.1]; exact h64
  have hm : r.docs_mask_.card < U64_MOD := by omega
  have hlive : r.live_docs_count = r.docs_count_ - r.docs_mask_.card := by
    unfold segment_reader_impl.live_docs_count
    rw [Nat.mod_eq_of_lt hc, Nat.mod_eq_of_lt hm]
    have : r.docs_count_ + (U64_MOD - r.docs_mask_.card) =
        (r.docs_count_ - r.docs_mask_.card) + U64_MOD := by omega
    rw [this, Nat.add_mod_right, Nat.mod_eq_of_lt (by omega)]
  exact ⟨hlive, by omega, hfields.1, hfields.2⟩

/-- C9, a concrete run: three documents with document 2 masked leave two live
documents. -/
theorem C9_live_docs_count_witness :
    ∃ r, segment_reader_impl.open sample_env_no_columns sample_segment = some r ∧
      r.live_docs_count = 2 ∧ r.docs_count = 3 ∧ r.docs_mask_.card = 1 := by
  obtain ⟨r, hr⟩ := Option.isSome_iff_exists.1
    (show (segment_reader_impl.open sample_env_no_columns sample_segment).isSome = true by decide)
  have hd : r.docs_count = 3 ∧ r.docs_mask_.card = 1 := by
    revert hr
    simp only [segment_reader_impl.open, sample_env_no_columns, sample_segment]
    simp
    intro h
    subst h
    simp [segment_reader_impl.docs_count]
  have h := C9_live_docs_count sample_env_no_columns sample_segment r hr (by decide)
    (by rw [hd.1, hd.2]; decide)
  exact ⟨r, hr, by rw [h.1, hd.1, hd.2], hd.1, hd.2⟩

/-- C9 as stated fails: a segment of one document whose mask file lists the ids
0 and 1 opens to a reader with `docs_count() = 1`, two masked ids and
`live_docs_count() = 2^64 - 1`, which is not `1 - 2`. -/
theorem C9_counterexample :
    (segment_reader_impl.open sample_env_wide_mask sample_segment_one_doc).map
      (fun r => (r.live_docs_count, r.docs_count, r.docs_mask_.card)) =
      some (18446744073709551615, 1, 2) ∧
    ((18446744073709551615 : Nat) : Int) ≠ (1 : Int) - (2 : Int) := by
  refine ⟨by decide, by decide⟩

/-! ### C10: opening without a columnstore -/

/-- C10: if the field reader prepares and the columnstore reader is absent or
fails to prepare, `open` returns a non-empty reader, the callable returned by
`values(field_id)` returns false for every field id and every document (and
leaves the output bytes alone), and `visit(field_id, ...)` returns false. -/
theorem C10_open_without_columnstore {F V : Type} (env : open_env F V) (segment : segment_meta)
    (hfield : env.field_reader_prepare = true)
    (hcs : env.has_columnstore = false ∨ env.columnstore_prepare = false) :
    ∃ r, segment_reader_impl.open env segment = some r ∧
      (∀ field doc out, r.values field doc out = (false, out)) ∧
      (∀ field visitor, r.visit field visitor = false) := by
  have hand : (env.has_columnstore && env.columnstore_prepare) = false := by
    rcases hcs with h | h <;> simp [h]
  simp [segment_reader_impl.open, hfield, hand, segment_reader_impl.values,
    segment_reader_impl.visit]

/-- C10, a concrete run: the segment has a columnstore that would answer true
for every document, but its reader fails to prepare: the opened reader's
`values` and `visit` answer false. -/
theorem C10_open_without_columnstore_witness :
    ∃ r, segment_reader_impl.open sample_env_no_columns sample_segment = some r ∧
      (∀ field doc out, r.values field doc out = (false, out)) ∧
      (∀ field visitor, r.visit field visitor = false) :=
  C10_open_without_columnstore sample_env_no_columns sample_segment rfl (Or.inr rfl)

end iresearch

namespace iresearch

/-! ### C11: `segment_reader::reopen` -/

/-- A reader remembers the version of the segment meta it was opened with. -/
theorem open_meta_version {F V : Type} (env : open_env F V) (segment : segment_meta)
    (r : segment_reader_impl F V) (hopen : segment_reader_impl.open env segment = some r) :
    r.meta_version = segment.version := by
  revert hopen
  simp only [segment_reader_impl.open]
  split_ifs <;> intro h <;> simp at h <;> subst h <;> simp [segment_reader_impl.meta_version]

/-- C11: for a reader `r` opened with the segment meta `m0` and every segment
meta `m`: if `m.version` equals `m0.version`, `r.reopen(m)` returns `r` itself
and calls `open` not at all, whatever the other fields of `m` and whatever the
directory and codec would answer; if the versions differ, the result is that of
`open(dir, m)`, called once. -/
theorem C11_reopen_by_version {F V : Type} (env0 : open_env F V) (m0 : segment_meta)
    (r : segment_reader_impl F V) (hopen : segment_reader_impl.open env0 m0 = some r)
    (env : open_env F V) (m : segment_meta) :
    (m.version = m0.version → r.reopen env m = (some r, 0)) ∧
    (m.version ≠ m0.version → r.reopen env m = (segment_reader_impl.open env m, 1)) := by
  have hv := open_meta_version env0 m0 r hopen
  constructor
  · intro h
    simp [segment_reader_impl.reopen, hv, h]
  · intro h
    have hne : ¬ m0.version = m.version := fun e => h e.symm
    simp [segment_reader_impl.reopen, hv, hne]

/-- C11, a concrete run: a reader opened at version 1 is reopened with a meta of
version 1 that differs in name, document count and files, against a directory
that answers differently: the result is the reader itself, with its three
documents; reopened at version 2 the result is that of `open`. -/
theorem C11_reopen_by_version_witness :
    ∃ r, segment_reader_impl.open sample_env_no_columns sample_segment = some r ∧
      r.reopen sample_env_duplicate_columns sample_segment_same_version = (some r, 0) ∧
      r.reopen sample_env_duplicate_columns sample_segment_next_version =
        (segment_reader_impl.open sample_env_duplicate_columns sample_segment_next_version, 1) := by
  obtain ⟨r, hr⟩ := Option.isSome_iff_exists.1
    (show (segment_reader_impl.open sample_env_no_columns sample_segment).isSome = true by decide)
  have h1 := C11_reopen_by_version sample_env_no_columns sample_segment r hr
    sample_env_duplicate_columns sample_segment_same_version
  have h2 := C11_reopen_by_version sample_env_no_columns sample_segment r hr
    sample_env_duplicate_columns sample_segment_next_version
  exact ⟨r, hr, h1.1 rfl, h2.2 (by decide)⟩

/-! ### C13: `tracking_directory::swap_tracked` -/

/-- C13: when `swap_tracked(S)` returns true the directory's tracked set is the
old `S` and `S` is the directory's old tracked set, so the two sets together
hold the same names as before and share the same names as before; a second
successful swap restores both; the overload taking a tracking directory
exchanges the tracked sets of the two directories. -/
theorem C13_swap_tracked_exchanges (d : tracking_directory) (swap_throws : Bool)
    (other : Finset String) (hok : (d.swap_tracked swap_throws other).1 = true) :
    (d.swap_tracked swap_throws other).2.1.files_ = other ∧
    (d.swap_tracked swap_throws other).2.2 = d.files_ ∧
    (d.swap_tracked swap_throws other).2.1.files_ ∪ (d.swap_tracked swap_throws other).2.2 =
      d.files_ ∪ other ∧
    (d.swap_tracked swap_throws other).2.1.files_ ∩ (d.swap_tracked swap_throws other).2.2 =
      d.files_ ∩ other ∧
    ((d.swap_tracked swap_throws other).2.1.swap_tracked false
      (d.swap_tracked swap_throws other).2.2) = (true, d, other) ∧
    (∀ o : tracking_directory,
      (d.swap_tracked_dir swap_throws o).2.1.files_ = o.files_ ∧
      (d.swap_tracked_dir swap_throws o).2.2.files_ = d.files_) := by
  cases swap_throws
  · simp [tracking_directory.swap_tracked, tracking_directory.swap_tracked_dir,
      Finset.union_comm, Finset.inter_comm]
  · simp [tracking_directory.swap_tracked] at hok

/-- C13, a concrete run: a directory tracking `_1.fd` and `_1.cs` swaps with the
set `{stale}`. -/
theorem C13_swap_tracked_exchanges_witness :
    (tracking_directory.swap_tracked { files_ := {"_1.fd", "_1.cs"}, track_open_ := false }
      false {"stale"}).2.1.files_ = {"stale"} ∧
    (tracking_directory.swap_tracked { files_ := {"_1.fd", "_1.cs"}, track_open_ := false }
      false {"stale"}).2.2 = {"_1.fd", "_1.cs"} :=
  have h := C13_swap_tracked_exchanges { files_ := {"_1.fd", "_1.cs"}, track_open_ := false }
    false {"stale"} rfl
  ⟨h.1, h.2.1⟩

/-! ### C14: `remove_except_current_segments` -/

/-- Collecting names into a set with `emplace` gives the set of the names. -/
theorem mem_foldl_insert (files : List String) (acc : Finset String) (name : String) :
    name ∈ files.foldl (fun a file => insert file a) acc ↔ name ∈ acc ∨ name ∈ files := by
  induction files generalizing acc with
  | nil => simp
  | cons f rest ih =>
    simp only [List.foldl_cons, ih, Finset.mem_insert, List.mem_cons]
    tauto

/-- C14: when a segments file is found, the acceptor approves the removal of a
filename if and only if the filename is neither one of the files the latest
index meta references nor the segments file itself; when no segments file is
found it approves the removal of every filename. -/
theorem C14_removal_acceptor (src : index_meta_source) (filename : String) :
    (∀ segment_file, src.last_segments_file = some segment_file →
      (directory_utils.remove_except_current_segments src filename = true ↔
        filename ∉ src.visit_files segment_file ∧ filename ≠ segment_file)) ∧
    (src.last_segments_file = none →
      directory_utils.remove_except_current_segments src filename = true) := by
  constructor
  · intro segment_file h
    simp [directory_utils.remove_except_current_segments, h, mem_foldl_insert]
    tauto
  · intro h
    simp [directory_utils.remove_except_current_segments, h]

/-- C14, concrete runs: with `segments_2` referencing `_1.sm` and `_1.doc`, a
stray file may be removed, the referenced files and `segments_2` may not; when
no segments file is found `_1.sm` may be removed. -/
theorem C14_removal_acceptor_witness :
    directory_utils.remove_except_current_segments sample_index_meta_source "_0.tmp" = true ∧
    directory_utils.remove_except_current_segments sample_index_meta_source "_1.doc" = false ∧
    directory_utils.remove_except_current_segments sample_index_meta_source "segments_2" = false ∧
    directory_utils.remove_except_current_segments sample_index_meta_missing "_1.sm" = true :=
  ⟨((C14_removal_acceptor sample_index_meta_source "_0.tmp").1 "segments_2" rfl).2
      (by decide),
   by decide, by decide,
   (C14_removal_acceptor sample_index_meta_missing "_1.sm").2 rfl⟩

/-! ### C15, C16: `by_edit_distance::prepare` and `by_edit_distance::visit` -/

/-- C15: for every index, order, boost, field, term, terms limit, provider and
transposition flag, `by_edit_distance::prepare` with `max_distance == 0`
returns `term_query::make(index, order, boost, field, term)` and calls the
provider not at all. -/
theorem C15_prepare_zero_distance {I O B T D Q : Type} (ops : prepare_ops I O B T D Q)
    (index : I) (order : O) (boost : B) (field : String) (term : T) (scored_terms_limit : Nat)
    (provider : Nat → Bool → Option D) (with_transpositions : Bool) :
    by_edit_distance.prepare ops index order boost field term scored_terms_limit 0 provider
      with_transpositions = (ops.term_query_make index order boost field term, 0) := by
  simp [by_edit_distance.prepare, executeLevenshtein]

/-- C16: for every `max_distance > 0` for which the provider returns a null
parametric description, `by_edit_distance::prepare` returns the empty prepared
filter and `by_edit_distance::visit` invokes the visitor for no term (the
provider is asked once in each). -/
theorem C16_null_description {I O B T D Q Rd : Type} (pops : prepare_ops I O B T D Q)
    (vops : visit_ops Rd T D) (index : I) (order : O) (boost : B) (field : String) (term : T)
    (scored_terms_limit : Nat) (reader : Rd) (max_distance : Nat)
    (provider : Nat → Bool → Option D) (with_transpositions : Bool)
    (hpos : 0 < max_distance) (hnull : provider max_distance with_transpositions = none) :
    by_edit_distance.prepare pops index order boost field term scored_terms_limit max_distance
      provider with_transpositions = (pops.empty, 1) ∧
    by_edit_distance.visit vops reader term max_distance provider with_transpositions =
      ([], 1) := by
  have hne : ¬ 0 = max_distance := by omega
  simp [by_edit_distance.prepare, by_edit_distance.visit, executeLevenshtein, hne, hnull]

/-- C16, a concrete run: the provider has no description for distance 5, the
reader holds two terms that an automaton visit would report. -/
theorem C16_null_description_witness :
    by_edit_distance.prepare sample_prepare_ops () () () "f" "aple" 0 5 sample_provider false =
      (sample_prepared.empty, 1) ∧
    by_edit_distance.visit sample_visit_ops ["apple", "apricot"] "aple" 5 sample_provider false =
      ([], 1) :=
  C16_null_description sample_prepare_ops sample_visit_ops () () () "f" "aple" 0
    ["apple", "apricot"] 5 sample_provider false (by decide) (by decide)

/-! ### C19: `fs_index_input::seek_internal` -/

/-- C19: `seek_internal(pos)` raises `io_error` if and only if `pos` is greater
than the file length, and then leaves the stream, its position included, as it
was; for every `pos <= length`, `pos == length` included, it sets the position
to `pos` and changes nothing else. -/
theorem C19_seek_internal (i : fs_index_input) (pos : Nat) :
    ((∃ s, i.seek_internal pos = Except.error s) ↔ pos > i.length) ∧
    (pos > i.length → i.seek_internal pos = Except.error i) ∧
    (pos ≤ i.length → i.seek_internal pos = Except.ok { i with pos_ := pos }) ∧
    i.seek_internal i.length = Except.ok { i with pos_ := i.length } := by
  unfold fs_index_input.seek_internal fs_index_input.length
  by_cases h : pos > i.handle_.size
  · simp [h]
  · simp [h]

/-- C19, concrete runs on a file of 10 bytes read up to position 4: seeking to
10 succeeds, seeking to 11 raises and leaves the position at 4. -/
theorem C19_seek_internal_witness :
    fs_index_input.seek_internal { pos_ := 4, handle_ := { size := 10, pos := 4 } } 10 =
      Except.ok { pos_ := 10, handle_ := { size := 10, pos := 4 } } ∧
    fs_index_input.seek_internal { pos_ := 4, handle_ := { size := 10, pos := 4 } } 11 =
      Except.error { pos_ := 4, handle_ := { size := 10, pos := 4 } } :=
  ⟨(C19_seek_internal { pos_ := 4, handle_ := { size := 10, pos := 4 } } 10).2.2.1 (by decide),
   (C19_seek_internal { pos_ := 4, handle_ := { size := 10, pos := 4 } } 11).2.1 (by decide)⟩

end iresearch

namespace iresearch

/-! ### C12: `segment_writer::store_attribute` -/

/-- Numbering one more name. -/
theorem numbered_columns_append (first : Nat) (seen : List String) (n : String) :
    numbered_columns first (seen ++ [n]) =
      numbered_columns first seen ++ [(n, first + seen.length)] := by
  induction seen generalizing first with
  | nil => simp [numbered_columns]
  | cons m rest ih =>
    rw [List.cons_append]
    simp only [numbered_columns]
    rw [ih]
    simp only [List.cons_append, List.length_cons, List.cons.injEq, true_and]
    congr 3
    omega

/-- Looking a name up among numbered columns. -/
theorem lookup_numbered_columns (first : Nat) (seen : List String) (n : String) :
    (numbered_columns first seen).lookup n =
      if n ∈ seen then some (first + seen.indexOf n) else none := by
  induction seen generalizing first with
  | nil => simp [numbered_columns]
  | cons m rest ih =>
    simp only [numbered_columns, List.lookup_cons]
    by_cases h : n = m
    · subst h
      simp
    · have hb : (n == m) = false := by simpa using h
      have hm : ¬ m = n := fun e => h e.symm
      rw [hb, ih]
      by_cases hr : n ∈ rest
      · simp [hr, h, List.indexOf_cons_ne _ hm]
        omega
      · simp [hr, h]

end iresearch

namespace iresearch

/-! ### C17, C18: `fs_lock` -/

/-- C17: `lock()` on an instance that already holds the lock returns false and
leaves the lock and the file system as they were, whatever the `file_utils`
functions would do (none is called); `is_locked` then still stores true in
`result`, returns true and calls no `file_utils` function either. -/
theorem C17_lock_refuses_holder {φ H : Type} (ops : file_utils_ops φ H) (l : fs_lock H)
    (fs : φ) (try_throws : Bool) (hheld : l.handle_.isSome = true) :
    l.lock ops fs = (false, l, fs) ∧
    (l.lock ops fs).2.1.is_locked ops (l.lock ops fs).2.2 try_throws =
      (true, some true, l, fs) := by
  have hlock : l.lock ops fs = (false, l, fs) := by simp [fs_lock.lock, hheld]
  refine ⟨hlock, ?_⟩
  rw [hlock]
  simp [fs_lock.is_locked, hheld]

/-- C17, a concrete run: a held lock on a file system holding the directory and
the sentinel; `lock()` returns false and the call log stays empty. -/
theorem C17_lock_refuses_holder_witness :
    sample_lock_held.lock sample_file_utils ({"idx", "idx/write.lock"}, []) =
      (false, sample_lock_held, ({"idx", "idx/write.lock"}, [])) :=
  (C17_lock_refuses_holder sample_file_utils sample_lock_held ({"idx", "idx/write.lock"}, [])
    false rfl).1

/-- C18: `unlock()` on an instance that holds the lock releases the handle and,
outside Windows, removes the sentinel file `dir_ / file_` and returns the result
of that removal (on Windows it returns true and removes nothing); a following
`lock()` passes the self-reacquisition check and asks the file system, and it
succeeds when the directory exists, no valid lock file is found, no stale
sentinel is left and the lock file can be created. `unlock()` on an instance
that does not hold the lock returns false and changes nothing. `is_locked()`
leaves the instance, and so whether it holds the lock, as it was. -/
theorem C18_unlock_releases {φ H : Type} (ops : file_utils_ops φ H) (l : fs_lock H) (fs : φ) :
    (l.handle_.isSome = true →
      l.unlock ops false fs =
        ((ops.remove fs l.path).1, { l with handle_ := none }, (ops.remove fs l.path).2) ∧
      l.unlock ops true fs = (true, { l with handle_ := none }, fs) ∧
      (∀ (win32 : Bool) (fs1 fs2 fs3 fs4 : φ) (h : H),
        ops.exists_path (l.unlock ops win32 fs).2.2 l.dir_ = ((true, true), fs1) →
        ops.verify_lock_file fs1 l.path = (false, fs2) →
        ops.exists_path fs2 l.path = ((true, false), fs3) →
        ops.create_lock_file fs3 l.path = (some h, fs4) →
        (l.unlock ops win32 fs).2.1.lock ops (l.unlock ops win32 fs).2.2 =
          (true, { l with handle_ := some h }, fs4))) ∧
    (l.handle_.isSome = false → ∀ win32, l.unlock ops win32 fs = (false, l, fs)) ∧
    (∀ try_throws, (l.is_locked ops fs try_throws).2.2.1 = l) := by
  refine ⟨?_, ?_, ?_⟩
  · intro hheld
    refine ⟨by simp [fs_lock.unlock, hheld], by simp [fs_lock.unlock, hheld], ?_⟩
    intro win32 fs1 fs2 fs3 fs4 h h1 h2 h3 h4
    have hl : (l.unlock ops win32 fs).2.1 = { l with handle_ := none } := by
      cases win32 <;> simp [fs_lock.unlock, hheld]
    rw [hl]
    simp only [fs_lock.lock, fs_lock.path] at *
    simp [h1, h2, h3, h4]
  · intro hfree win32
    simp [fs_lock.unlock, hfree]
  · intro try_throws
    simp only [fs_lock.is_locked]
    split_ifs <;> rfl

/-- C18, a concrete run outside Windows: the held lock is unlocked, which
removes the sentinel and returns true; the following `lock()` succeeds and
creates the sentinel again; unlocking the free lock returns false and calls
nothing. -/
theorem C18_unlock_releases_witness :
    sample_lock_held.unlock sample_file_utils false ({"idx", "idx/write.lock"}, []) =
      (true, sample_lock_free, ({"idx"}, ["remove idx/write.lock"])) ∧
    (sample_lock_free.lock sample_file_utils ({"idx"}, [])).1 = true ∧
    (sample_lock_free.lock sample_file_utils ({"idx"}, [])).2.1 = sample_lock_held ∧
    (sample_lock_free.lock sample_file_utils ({"idx"}, [])).2.2.1 = {"idx", "idx/write.lock"} ∧
    sample_lock_free.unlock sample_file_utils false ({"idx"}, []) =
      (false, sample_lock_free, ({"idx"}, [])) := by
  have h := C18_unlock_releases sample_file_utils sample_lock_free ({"idx"}, [])
  exact ⟨by decide, by decide, by decide, by decide, h.2.1 rfl false⟩

end iresearch

namespace iresearch

/-! ### C20: `fs_index_output::checksum` and `flush_buffer` -/

/-- Processing bytes chunk by chunk is processing them all. -/
theorem crc32c_process_append (reg : Nat) (a b : List Nat) :
    crc32c_process (crc32c_process reg a) b = crc32c_process reg (a ++ b) := by
  simp [crc32c_process, List.foldl_append]

/-- When every `fwrite` writes all it is asked to, `flush_buffer` appends the
buffer to the file, feeds it to the CRC and does not raise. -/
theorem flush_buffer_complete (fwrite : Nat → Nat → Nat) (hfull : ∀ k n, fwrite k n = n)
    (o : fs_index_output) (b : List Nat) :
    fs_index_output.flush_buffer fwrite o b =
      Except.ok { o with file := o.file ++ b, crc := crc32c_process o.crc b,
                         fwrites := o.fwrites + 1 } := by
  simp [fs_index_output.flush_buffer, hfull]

/-- Flushing keeps the bytes written and empties the buffer. -/
theorem flush_covers (fwrite : Nat → Nat → Nat) (hfull : ∀ k n, fwrite k n = n)
    (o : fs_index_output) (all : List Nat) (h : output_covers o all) :
    ∃ o1, fs_index_output.flush fwrite o = Except.ok o1 ∧ output_covers o1 all ∧
      o1.buf = [] ∧ o1.file = all := by
  obtain ⟨hall, hcrc⟩ := h
  refine ⟨{ o with buf := [], file := o.file ++ o.buf, crc := crc32c_process o.crc o.buf,
                   fwrites := o.fwrites + 1 }, ?_, ?_, rfl, hall⟩
  · simp [fs_index_output.flush, flush_buffer_complete fwrite hfull]
  · constructor
    · simpa using hall
    · simp only
      rw [hcrc, crc32c_process_append]

/-- Writing a byte adds it to the bytes written. -/
theorem write_byte_covers (fwrite : Nat → Nat → Nat) (hfull : ∀ k n, fwrite k n = n)
    (o : fs_index_output) (all : List Nat) (b : Nat) (h : output_covers o all) :
    ∃ o1, fs_index_output.write_byte fwrite o b = Except.ok o1 ∧
      output_covers o1 (all ++ [b]) := by
  have h1 : output_covers { o with buf := o.buf ++ [b] } (all ++ [b]) := by
    obtain ⟨hall, hcrc⟩ := h
    exact ⟨by simp [← hall], hcrc⟩
  unfold fs_index_output.write_byte
  simp only
  split_ifs
  · obtain ⟨o1, ho1, hc, _, _⟩ := flush_covers fwrite hfull _ _ h1
    exact ⟨o1, ho1, hc⟩
  · exact ⟨_, rfl, h1⟩

/-- Writing bytes adds them, in order, to the bytes written. -/
theorem write_bytes_covers (fwrite : Nat → Nat → Nat) (hfull : ∀ k n, fwrite k n = n)
    (bytes : List Nat) :
    ∀ (o : fs_index_output) (all : List Nat), output_covers o all →
      ∃ o1, fs_index_output.write_bytes fwrite o bytes = Except.ok o1 ∧
        output_covers o1 (all ++ bytes) := by
  induction bytes with
  | nil => intro o all h; exact ⟨o, rfl, by simpa using h⟩
  | cons b rest ih =>
    intro o all h
    obtain ⟨o1, ho1, hc1⟩ := write_byte_covers fwrite hfull o all b h
    obtain ⟨o2, ho2, hc2⟩ := ih o1 (all ++ [b]) hc1
    refine ⟨o2, ?_, by simpa using hc2⟩
    simp [fs_index_output.write_bytes, ho1, ho2]

/-- A sequence of writes adds all their bytes, in order, to the bytes
written. -/
theorem write_all_covers (fwrite : Nat → Nat → Nat) (hfull : ∀ k n, fwrite k n = n)
    (chunks : List (List Nat)) :
    ∀ (o : fs_index_output) (all : List Nat), output_covers o all →
      ∃ o1, fs_index_output.write_all fwrite o chunks = Except.ok o1 ∧
        output_covers o1 (all ++ chunks.flatten) := by
  induction chunks with
  | nil => intro o all h; exact ⟨o, rfl, by simpa using h⟩
  | cons c rest ih =>
    intro o all h
    obtain ⟨o1, ho1, hc1⟩ := write_bytes_covers fwrite hfull c o all h
    obtain ⟨o2, ho2, hc2⟩ := ih o1 (all ++ c) hc1
    refine ⟨o2, ?_, by simpa using hc2⟩
    simp [fs_index_output.write_all, ho1, ho2]

/-- C20: `flush_buffer` raises `io_error` exactly when the buffer is not empty
and `fwrite` reports a length other than the buffer's (it is written short).
When every `fwrite` writes all it is asked to, every sequence of writes to a
freshly opened stream succeeds, and `checksum()` then flushes the buffer (the
buffer is empty afterwards and the file holds all bytes written, in order) and
returns the CRC-32C of exactly all bytes written so far, in order. -/
theorem C20_checksum_of_written_bytes (fwrite : Nat → Nat → Nat) :
    (∀ o b, (∃ s, fs_index_output.flush_buffer fwrite o b = Except.error s) ↔
      (b ≠ [] ∧ fwrite o.fwrites b.length ≠ b.length)) ∧
    ((∀ k n, fwrite k n = n) → ∀ chunks : List (List Nat),
      ∃ o o1, fs_index_output.write_all fwrite fs_index_output.opened chunks = Except.ok o ∧
        fs_index_output.checksum fwrite o = Except.ok (crc32c chunks.flatten, o1) ∧
        o1.buf = [] ∧ o1.file = chunks.flatten) := by
  constructor
  · intro o b
    simp only [fs_index_output.flush_buffer]
    split_ifs with h
    · simp only [Except.error.injEq, exists_eq', true_iff]
      exact ⟨fun e => h.1 (by simp [e]), h.2⟩
    · simp only [reduceCtorEq, exists_false, false_iff]
      intro hb
      exact h ⟨fun e => hb.1 (List.length_eq_zero.1 e), hb.2⟩
  · intro hfull chunks
    have h0 : output_covers fs_index_output.opened [] := by
      simp [output_covers, fs_index_output.opened, crc32c_process]
    obtain ⟨o, ho, hc⟩ := write_all_covers fwrite hfull chunks _ _ h0
    obtain ⟨o1, ho1, hc1, hbuf, hfile⟩ := flush_covers fwrite hfull o _ hc
    refine ⟨o, o1, ho, ?_, hbuf, by simpa using hfile⟩
    simp only [fs_index_output.checksum, ho1, crc32c]
    rw [hc1.2, hfile]
    simp

set_option maxRecDepth 100000 in
/-- C20, concrete runs: the bytes of `123456789`, written in two calls to a
stream whose writes are complete, have the checksum `0xE3069283`; a three-byte
buffer of which `fwrite` takes two bytes makes `flush_buffer` raise, with the
two bytes in the file. -/
theorem C20_checksum_of_written_bytes_witness :
    (∃ o o1, fs_index_output.write_all sample_fwrite_all fs_index_output.opened
        [[49, 50, 51], [52, 53, 54, 55, 56, 57]] = Except.ok o ∧
      fs_index_output.checksum sample_fwrite_all o = Except.ok (0xE3069283, o1) ∧
      o1.buf = [] ∧ o1.file = [49, 50, 51, 52, 53, 54, 55, 56, 57]) ∧
    (∃ s, fs_index_output.flush_buffer sample_fwrite_short fs_index_output.opened [1, 2, 3] =
      Except.error s) := by
  have hcrc : crc32c [49, 50, 51, 52, 53, 54, 55, 56, 57] = 0xE3069283 := by decide
  have h := (C20_checksum_of_written_bytes sample_fwrite_all).2 (fun _ _ => rfl)
    [[49, 50, 51], [52, 53, 54, 55, 56, 57]]
  have hf : [[49, 50, 51], [52, 53, 54, 55, 56, 57]].flatten =
      [49, 50, 51, 52, 53, 54, 55, 56, 57] := rfl
  rw [hf, hcrc] at h
  exact ⟨h, ((C20_checksum_of_written_bytes sample_fwrite_short).1
    fs_index_output.opened [1, 2, 3]).2 ⟨by decide, by decide⟩⟩

end iresearch

namespace iresearch

/-! ### C21: `columns()` and `column(name)` -/

/-- The entry found through the position of its name is the first entry with
that name. -/
theorem get_indexOf_name (cols : List column_meta) (name : String) :
    cols.get? ((cols.map (fun c => c.name)).indexOf name) =
      cols.find? (fun c => decide (c.name = name)) := by
  induction cols with
  | nil => simp
  | cons c rest ih =>
    by_cases h : c.name = name
    · simp [h]
    · have hne : ¬ name = c.name := fun e => h e.symm
      simp only [List.map_cons, List.find?_cons, h, decide_False]
      rw [List.indexOf_cons_ne _ h]
      simpa using ih

/-- The loop of `read_columns_meta` on entries with distinct, new names: it runs
to its end, appends the entries in the order delivered and maps every name to
the position of its entry. -/
theorem read_columns_loop_distinct (entries : List column_meta) :
    ∀ st : columns_state,
      st.name_to_column = numbered_columns 0 (st.columns.map (fun c => c.name)) →
      ((st.columns ++ entries).map (fun c => c.name)).Nodup →
      (read_columns_loop entries st).1 = true ∧
      (read_columns_loop entries st).2.columns = st.columns ++ entries ∧
      (read_columns_loop entries st).2.name_to_column =
        numbered_columns 0 ((st.columns ++ entries).map (fun c => c.name)) := by
  induction entries with
  | nil => intro st h _; simp [read_columns_loop, h]
  | cons m rest ih =>
    intro st hmap hnodup
    have hnew : m.name ∉ st.columns.map (fun c => c.name) := by
      intro hmem
      rw [List.map_append, List.map_cons, List.nodup_append] at hnodup
      exact hnodup.2.2 hmem (List.mem_cons_self _ _)
    have hlook : st.name_to_column.lookup m.name = none := by
      rw [hmap, lookup_numbered_columns, if_neg hnew]
    have hrest := ih
      { columns := st.columns ++ [m],
        id_to_column := st.id_to_column.set m.id (some st.columns.length),
        name_to_column := st.name_to_column ++ [(m.name, st.columns.length)] }
      (by simp [hmap, numbered_columns_append])
      (by simpa using hnodup)
    simp only [read_columns_loop, hlook, Option.isSome_none]
    simpa using hrest

/-- The columns of an opened reader are what `read_columns_meta` leaves in the
containers it is given empty. -/
theorem open_columns_state {F V : Type} (env : open_env F V) (segment : segment_meta)
    (hfield : env.field_reader_prepare = true) :
    ∃ r, segment_reader_impl.open env segment = some r ∧
      r.columns_ = (read_columns_meta env.column_meta_prepare env.column_meta_entries
        { columns := [], id_to_column := [], name_to_column := [] }).2.columns ∧
      r.name_to_column_ = (read_columns_meta env.column_meta_prepare env.column_meta_entries
        { columns := [], id_to_column := [], name_to_column := [] }).2.name_to_column := by
  cases hcs : (env.has_columnstore && env.columnstore_prepare) <;>
    simp [segment_reader_impl.open, hfield, hcs]

/-- What the claim gets right: when the field reader prepares and the
column-meta reader delivers at most `count` entries with ids below `count` and
distinct names, the opened reader's `columns()` enumerates all of them, in the
order delivered, and `column(name)` is the entry with that name, or null when
there is none. -/
theorem open_columns_as_delivered {F V : Type} (env : open_env F V) (segment : segment_meta)
    (count : Nat) (hfield : env.field_reader_prepare = true)
    (hprep : env.column_meta_prepare = some count)
    (_hcount : env.column_meta_entries.length ≤ count)
    (_hids : ∀ c ∈ env.column_meta_entries, c.id < count)
    (hnodup : (env.column_meta_entries.map (fun c => c.name)).Nodup) :
    ∃ r, segment_reader_impl.open env segment = some r ∧
      r.columns = env.column_meta_entries ∧
      ∀ name, r.column name =
        env.column_meta_entries.find? (fun c => decide (c.name = name)) := by
  have hloop := read_columns_loop_distinct env.column_meta_entries
    { columns := [], id_to_column := List.replicate count none, name_to_column := [] }
    (by simp [numbered_columns]) (by simpa using hnodup)
  simp only [List.nil_append] at hloop
  have hmeta : (read_columns_meta env.column_meta_prepare env.column_meta_entries
        { columns := [], id_to_column := [], name_to_column := [] }).2 =
      (read_columns_loop env.column_meta_entries
        { columns := [], id_to_column := List.replicate count none,
          name_to_column := [] }).2 := by
    simp [read_columns_meta, hprep]
  obtain ⟨r, hr, hc, hn⟩ := open_columns_state env segment hfield
  rw [hmeta] at hc hn
  rw [hloop.2.1] at hc
  rw [hloop.2.2] at hn
  refine ⟨r, hr, hc, ?_⟩
  intro name
  simp only [segment_reader_impl.column, hn, hc, lookup_numbered_columns]
  by_cases hmem : name ∈ env.column_meta_entries.map (fun c => c.name)
  · simp only [if_pos hmem, zero_add]
    exact get_indexOf_name _ _
  · simp only [if_neg hmem]
    symm
    rw [List.find?_eq_none]
    intro c hc'
    simp only [decide_eq_true_eq]
    intro h
    exact hmem (List.mem_map.2 ⟨c, hc', h⟩)

/-- C21 (the code against the claim): `flush` writes the column metadata in the
iteration order of the hash map `columns_`, and `read_columns_meta` checks the
order by an `assert` only. For a map iterated as `b`, `a` the opened reader's
`columns()` enumerates `b` before `a`, which is not ascending by name, although
`read_columns_meta` returned true; `column(name)` finds both entries and is
null for a name that is not loaded. -/
theorem C21_columns_in_written_order :
    (read_columns_meta sample_env_unsorted_columns.column_meta_prepare
      sample_env_unsorted_columns.column_meta_entries
      { columns := [], id_to_column := [], name_to_column := [] }).1 = true ∧
    (segment_reader_impl.open sample_env_unsorted_columns sample_segment).map
      (fun r => r.columns.map (fun c => c.name)) = some ["b", "a"] ∧
    ¬ List.Sorted (fun x y : String => x < y) ["b", "a"] ∧
    (segment_reader_impl.open sample_env_unsorted_columns sample_segment).map
      (fun r => (r.column "a", r.column "b", r.column "c")) =
      some (some { name := "a", id := 1 }, some { name := "b", id := 0 }, none) := by
  refine ⟨by decide, by decide, ?_, by decide⟩
  simp only [List.Sorted, List.pairwise_cons, List.mem_singleton, forall_eq, List.not_mem_nil,
    IsEmpty.forall_iff, implies_true, List.Pairwise.nil, and_true, String.lt_iff_toList_lt]
  decide

end iresearch

namespace iresearch

/-! ### C22: `segment_writer::finish` -/

/-- C22: after `finish(doc_id, ctx)` no field is registered for norm
computation and the stored-field header holds no field ids, so the next
document starts clean: a stored field of the next document is alone in the
header and a field indexed for it is the only one that can be registered; the
header handed to the stored-fields writer was the finished document's, norms
were written for registered fields only, `ctx` is recorded under `doc_id`, the
contexts of other documents and the rest of the writer are as before. -/
theorem C22_finish_clears_document_state {C : Type} (norm_differs : Nat → Bool)
    (w : segment_writer) (d : doc_state C) (doc_id : Nat) (ctx : C) :
    (segment_writer.finish norm_differs w d doc_id ctx).writer.norm_fields_ = ∅ ∧
    (segment_writer.finish norm_differs w d doc_id ctx).doc.header_doc_fields = [] ∧
    (segment_writer.finish norm_differs w d doc_id ctx).doc.docs_context_ doc_id = some ctx ∧
    (∀ other, other ≠ doc_id →
      (segment_writer.finish norm_differs w d doc_id ctx).doc.docs_context_ other =
        d.docs_context_ other) ∧
    (segment_writer.finish norm_differs w d doc_id ctx).header_ended = d.header_doc_fields ∧
    (segment_writer.finish norm_differs w d doc_id ctx).norm_writes ⊆ w.norm_fields_ ∧
    (segment_writer.finish norm_differs w d doc_id ctx).writer = { w with norm_fields_ := ∅ } ∧
    (∀ field_id,
      (segment_writer.store_field (segment_writer.finish norm_differs w d doc_id ctx).doc true
        field_id).2.header_doc_fields = [field_id]) ∧
    (∀ {σ τ β : Type} (ops : field_data_ops σ τ β) (sid : Nat) (slot : σ) (next_doc : Nat)
        (tokens : τ) (features : flags) (boost : β),
      (segment_writer.index_field ops (segment_writer.finish norm_differs w d doc_id ctx).writer
        sid slot next_doc tokens features boost).writer.norm_fields_ ⊆ {sid}) := by
  refine ⟨rfl, rfl, by simp [segment_writer.finish], ?_, rfl, ?_, rfl, ?_, ?_⟩
  · intro other h
    simp [segment_writer.finish, h]
  · simp [segment_writer.finish, Finset.filter_subset]
  · intro field_id
    simp [segment_writer.store_field, segment_writer.finish]
  · intro σ τ β ops sid slot next_doc tokens features boost
    simp only [segment_writer.index_field, segment_writer.finish]
    split_ifs <;> simp

/-- C22, a concrete run: document 2 is finished with the slots 3 and 5
registered and the fields 4 and 9 stored; afterwards nothing is registered,
the header is empty and the context of document 2 is recorded next to that of
document 1. -/
theorem C22_finish_clears_document_state_witness :
    (segment_writer.finish (fun f => decide (f = 3)) sample_writer_mid_document sample_doc_state
      2 "ctx2").writer.norm_fields_ = ∅ ∧
    (segment_writer.finish (fun f => decide (f = 3)) sample_writer_mid_document sample_doc_state
      2 "ctx2").doc.header_doc_fields = [] ∧
    (segment_writer.finish (fun f => decide (f = 3)) sample_writer_mid_document sample_doc_state
      2 "ctx2").doc.docs_context_ 2 = some "ctx2" ∧
    (segment_writer.finish (fun f => decide (f = 3)) sample_writer_mid_document sample_doc_state
      2 "ctx2").doc.docs_context_ 1 = some "ctx1" ∧
    (segment_writer.finish (fun f => decide (f = 3)) sample_writer_mid_document sample_doc_state
      2 "ctx2").norm_writes = {3} ∧
    (segment_writer.finish (fun f => decide (f = 3)) sample_writer_mid_document sample_doc_state
      2 "ctx2").header_ended = [4, 9] :=
  have h := C22_finish_clears_document_state (fun f => decide (f = 3))
    sample_writer_mid_document sample_doc_state 2 "ctx2"
  ⟨h.1, h.2.1, h.2.2.1, by decide, by decide, h.2.2.2.2.1⟩

/-! ### C23: `by_edit_distance::hash` and `by_edit_distance::equals` -/

/-- C23: given that base parts that compare equal hash equally, any two
`by_edit_distance` filters that compare equal have the same `hash()`, whatever
their providers are. -/
theorem C23_equal_filters_hash_equally {P : Type} (ops : filter_base_ops P)
    (f g : by_edit_distance_filter P)
    (hbase : ∀ p q, ops.base_equals p q = true → ops.base_hash p = ops.base_hash q)
    (heq : f.equals ops g = true) :
    f.hash ops = g.hash ops := by
  simp only [by_edit_distance_filter.equals, Bool.and_eq_true, decide_eq_true_eq] at heq
  obtain ⟨⟨hb, hd⟩, ht⟩ := heq
  simp only [by_edit_distance_filter.hash, hbase _ _ hb, hd, ht]

/-- C23, a concrete run: two filters on the same field and term with distance 2
and transpositions, built with different providers, compare equal and both
hash to the same value. -/
theorem C23_equal_filters_hash_equally_witness :
    by_edit_distance_filter.equals sample_filter_ops
      { base := "f:apple", provider_ := 0, max_distance_ := 2, with_transpositions_ := true }
      { base := "f:apple", provider_ := 7, max_distance_ := 2, with_transpositions_ := true }
      = true ∧
    by_edit_distance_filter.hash sample_filter_ops
      { base := "f:apple", provider_ := 0, max_distance_ := 2, with_transpositions_ := true } =
    by_edit_distance_filter.hash sample_filter_ops
      { base := "f:apple", provider_ := 7, max_distance_ := 2, with_transpositions_ := true } :=
  ⟨by decide,
   C23_equal_filters_hash_equally sample_filter_ops
     { base := "f:apple", provider_ := 0, max_distance_ := 2, with_transpositions_ := true }
     { base := "f:apple", provider_ := 7, max_distance_ := 2, with_transpositions_ := true }
     (fun p q h => by
       have : p = q := by simpa [sample_filter_ops] using h
       rw [this])
     (by decide)⟩

end iresearch

namespace iresearch

/-! ### C25: the ids `docs_iterator()` yields and `live_docs_count()` -/

/-- With the mask inside the range, the ids of the range that are not masked are
`docs_count` minus the mask size many. -/
theorem live_doc_ids_length (minDoc docs_count : Nat) (docs_mask : Finset Nat)
    (hmask : ∀ d ∈ docs_mask, minDoc ≤ d ∧ d < minDoc + docs_count) :
    (live_doc_ids minDoc docs_count docs_mask).length + docs_mask.card = docs_count := by
  have hmasked : ((List.range' minDoc docs_count).filter
      (fun d => decide (d ∈ docs_mask))).length = docs_mask.card := by
    have hnd : ((List.range' minDoc docs_count).filter
        (fun d => decide (d ∈ docs_mask))).Nodup :=
      List.Nodup.filter _ (List.nodup_range' minDoc docs_count)
    rw [← List.toFinset_card_of_nodup hnd]
    congr 1
    ext d
    simp only [List.mem_toFinset, List.mem_filter, List.mem_range'_1, decide_eq_true_eq]
    exact ⟨fun h => h.2, fun h => ⟨hmask d h, h⟩⟩
  have hsplit := List.length_eq_countP_add_countP
    (fun d => decide (d ∈ docs_mask)) (List.range' minDoc docs_count)
  rw [List.length_range', List.countP_eq_length_filter, List.countP_eq_length_filter,
    hmasked] at hsplit
  have hlive : (live_doc_ids minDoc docs_count docs_mask).length =
      ((List.range' minDoc docs_count).filter
        (fun d => !decide (d ∈ docs_mask))).length := by
    unfold live_doc_ids
    congr 1
    apply List.filter_congr
    intro d _
    simp
  rw [hlive]
  have hfun : (fun d => !decide (d ∈ docs_mask)) =
      (fun d => decide ¬ (decide (d ∈ docs_mask) = true)) := by
    funext d; simp
  rw [hfun]
  omega

/-- C25: for every reader whose mask lies inside `[MIN_DOC, MIN_DOC+docs_count)`
and for which `MIN_DOC + docs_count` is below `2^32`, the number of ids
`docs_iterator()` yields before `next()` first returns false equals
`live_docs_count()`. -/
theorem C25_yielded_count_is_live_docs_count {F V : Type} (minDoc : Nat)
    (r : segment_reader_impl F V) (calls : Nat)
    (hmask : ∀ d ∈ r.docs_mask_, minDoc ≤ d ∧ d < minDoc + r.docs_count)
    (hfit : minDoc + r.docs_count < DOC_ID_MOD) (hcalls : r.docs_count < calls) :
    (masked_docs_iterator.observed calls (r.docs_iterator minDoc)).length =
      r.live_docs_count ∧
    (masked_docs_iterator.observed calls (r.docs_iterator minDoc)).length < calls := by
  unfold segment_reader_impl.docs_count at hmask hfit hcalls
  have hobs := observed_docs_iterator minDoc r.docs_count_ r.docs_mask_ calls hfit hcalls
  have hlen := live_doc_ids_length minDoc r.docs_count_ r.docs_mask_ hmask
  have h64 : r.docs_count_ < U64_MOD := by
    simp only [DOC_ID_MOD, U64_MOD] at *; omega
  have hcard : r.docs_mask_.card < U64_MOD := by omega
  have hlive : r.live_docs_count = r.docs_count_ - r.docs_mask_.card := by
    unfold segment_reader_impl.live_docs_count
    rw [Nat.mod_eq_of_lt h64, Nat.mod_eq_of_lt hcard]
    have : r.docs_count_ + (U64_MOD - r.docs_mask_.card) =
        (r.docs_count_ - r.docs_mask_.card) + U64_MOD := by omega
    rw [this, Nat.add_mod_right, Nat.mod_eq_of_lt (by omega)]
  simp only [segment_reader_impl.docs_iterator, hobs, hlive]
  omega

/-- C25, a concrete run: three documents from id 1 with document 2 masked: two
ids are yielded and `live_docs_count()` is 2. -/
theorem C25_yielded_count_is_live_docs_count_witness :
    ∃ r, segment_reader_impl.open sample_env_no_columns sample_segment = some r ∧
      (masked_docs_iterator.observed 4 (r.docs_iterator 1)).length = r.live_docs_count ∧
      (masked_docs_iterator.observed 4 (r.docs_iterator 1)).length = 2 := by
  obtain ⟨r, hr⟩ := Option.isSome_iff_exists.1
    (show (segment_reader_impl.open sample_env_no_columns sample_segment).isSome = true by decide)
  have hd : r.docs_count_ = 3 ∧ r.docs_mask_ = {2} := by
    revert hr
    simp only [segment_reader_impl.open, sample_env_no_columns, sample_segment]
    simp
    intro h
    subst h
    simp
  have h := C25_yielded_count_is_live_docs_count 1 r 4
    (by
      intro d hdm
      rw [hd.2] at hdm
      simp only [Finset.mem_singleton] at hdm
      simp only [segment_reader_impl.docs_count, hd.1]
      omega)
    (by simp only [segment_reader_impl.docs_count, hd.1]; decide)
    (by simp only [segment_reader_impl.docs_count, hd.1]; decide)
  refine ⟨r, hr, h.1, ?_⟩
  simp only [segment_reader_impl.docs_iterator, hd.1, hd.2]
  decide

/-! ### C26: the segment-meta file and `meta.files` -/

/-- C27: for `rename(src, dst)` with `src != dst`: if the underlying rename
fails, false is returned and the tracked set is unchanged; if it succeeds, true
is returned, `dst` is in the tracked set afterwards (also when `src` was never
tracked), every name other than `src` and `dst` keeps its membership, and `src`
is tracked afterwards exactly when both `src` and `dst` were tracked before:
a tracked `src` is dropped exactly when `dst` was not already tracked. -/
theorem C27_rename_tracking (d : tracking_directory) (src dst : String) (hne : src ≠ dst) :
    d.rename false src dst = (false, d) ∧
    (d.rename true src dst).1 = true ∧
    dst ∈ (d.rename true src dst).2.files_ ∧
    (∀ name, name ≠ src → name ≠ dst →
      (name ∈ (d.rename true src dst).2.files_ ↔ name ∈ d.files_)) ∧
    (src ∈ (d.rename true src dst).2.files_ ↔ src ∈ d.files_ ∧ dst ∈ d.files_) ∧
    (src ∈ d.files_ → (src ∉ (d.rename true src dst).2.files_ ↔ dst ∉ d.files_)) := by
  have hne' : dst ≠ src := fun e => hne e.symm
  by_cases hdst : dst ∈ d.files_
  · simp [tracking_directory.rename, hdst]
  · simp [tracking_directory.rename, hdst, hne, hne']
    intro name h1 h2
    simp [h1, h2]

/-- C27, concrete runs: renaming the tracked `_1.tmp` to the untracked `_1.sm`
replaces it; renaming the untracked `other` to `_1.sm` adds `_1.sm`; renaming
`_1.tmp` to the tracked `_1.fd` keeps both. -/
theorem C27_rename_tracking_witness :
    (tracking_directory.rename { files_ := {"_1.tmp", "_1.fd"}, track_open_ := false } true
      "_1.tmp" "_1.sm").2.files_ = {"_1.fd", "_1.sm"} ∧
    (tracking_directory.rename { files_ := {"_1.tmp", "_1.fd"}, track_open_ := false } true
      "other" "_1.sm").2.files_ = {"_1.tmp", "_1.fd", "_1.sm"} ∧
    (tracking_directory.rename { files_ := {"_1.tmp", "_1.fd"}, track_open_ := false } true
      "_1.tmp" "_1.fd").2.files_ = {"_1.tmp", "_1.fd"} ∧
    tracking_directory.rename { files_ := {"_1.tmp", "_1.fd"}, track_open_ := false } false
      "_1.tmp" "_1.sm" = (false, { files_ := {"_1.tmp", "_1.fd"}, track_open_ := false }) :=
  ⟨by decide, by decide, by decide,
   (C27_rename_tracking { files_ := {"_1.tmp", "_1.fd"}, track_open_ := false }
     "_1.tmp" "_1.sm" (by decide)).1⟩

end iresearch

namespace iresearch

/-! ### C29: the distance a matched term is scored with -/

/-- C29: a matched term whose iterator carries no payload, or an empty one, is
scored with the sentinel distance `(max_distance + 1) mod 256`, which is
strictly greater than every distance up to `max_distance` whenever
`max_distance < 255`; a term whose iterator carries a non-empty payload is
scored with the first byte of the payload. -/
theorem C29_scored_distance (max_distance query_len value_len : Nat)
    (payload : Option (List Nat)) :
    ((payload = none ∨ payload = some []) →
      ((levenshtein_visitor_state.make max_distance query_len).prepare payload).distance payload =
        some ((max_distance + 1) % 256) ∧
      ((levenshtein_visitor_state.make max_distance query_len).prepare payload).visit payload
          value_len =
        some (levenshtein_terms_visitor.visit_key ((max_distance + 1) % 256) value_len
          query_len)) ∧
    (max_distance < 255 → ∀ d, d ≤ max_distance → d < (max_distance + 1) % 256) ∧
    (∀ b rest, payload = some (b :: rest) →
      ((levenshtein_visitor_state.make max_distance query_len).prepare payload).distance payload =
        some b ∧
      ((levenshtein_visitor_state.make max_distance query_len).prepare payload).visit payload
          value_len =
        some (levenshtein_terms_visitor.visit_key b value_len query_len)) := by
  refine ⟨?_, ?_, ?_⟩
  · rintro (h | h) <;> subst h <;>
      simp [levenshtein_visitor_state.make, levenshtein_visitor_state.prepare,
        levenshtein_visitor_state.distance, levenshtein_visitor_state.visit,
        levenshtein_terms_visitor.no_distance_, levenshtein_terms_visitor.visit_key,
        levenshtein_terms_visitor.visit_size, BYTE_MOD]
  · intro h d hd
    rw [Nat.mod_eq_of_lt (by omega)]
    omega
  · intro b rest h
    subst h
    simp [levenshtein_visitor_state.make, levenshtein_visitor_state.prepare,
      levenshtein_visitor_state.distance, levenshtein_visitor_state.visit,
      levenshtein_terms_visitor.visit_key, levenshtein_terms_visitor.visit_size]

/-- C29, concrete runs with `max_distance = 2` and the query `aple`: a term
without payload is scored with distance 3, a term of four characters with the
payload byte 1 with distance 1, which gives the key `3/4`. -/
theorem C29_scored_distance_witness :
    ((levenshtein_visitor_state.make 2 4).prepare none).distance none = some 3 ∧
    ((levenshtein_visitor_state.make 2 4).prepare (some [1])).distance (some [1]) = some 1 ∧
    ((levenshtein_visitor_state.make 2 4).prepare (some [1])).visit (some [1]) 4 =
      some (some (3 / 4)) := by
  have h := C29_scored_distance 2 4 4 none
  have h1 := C29_scored_distance 2 4 4 (some [1])
  refine ⟨(h.1 (Or.inl rfl)).1, (h1.2.2 1 [] rfl).1, ?_⟩
  rw [(h1.2.2 1 [] rfl).2]
  norm_num [levenshtein_terms_visitor.visit_key, levenshtein_terms_visitor.visit_size,
    levenshtein_terms_visitor.utf8_term_size_, similarity, U32_MOD]

/-! ### C30: the two visiting overloads of `reference` -/

/-- The loops of the two overloads do the same. -/
theorem reference_loops_agree (visitor : Nat → String → Bool) (include_missing : Bool)
    (files : List String) :
    ∀ st, directory_utils.reference_files_loop visitor include_missing files st =
      directory_utils.reference_source_loop visitor include_missing files st := by
  induction files with
  | nil => intro st; rfl
  | cons file rest ih =>
    intro st
    simp only [directory_utils.reference_files_loop, directory_utils.reference_source_loop, ih]

/-- Every run of the loop stops at the first visitor call that answers false. -/
theorem reference_loop_refusal (visitor : Nat → String → Bool) (include_missing : Bool)
    (files : List String) :
    ∀ st, stops_at_refusal st.trace
      (directory_utils.reference_source_loop visitor include_missing files st) := by
  induction files with
  | nil =>
    intro st
    exact ⟨[], by simp [directory_utils.reference_source_loop],
      by simp [directory_utils.reference_source_loop],
      by simp [directory_utils.reference_source_loop]⟩
  | cons file rest ih =>
    intro st
    -- every path of the body either stops at a refusing visitor call or goes on
    have hstop : ∀ (st1 : reference_state) (evs : List ref_event),
        st1.trace = st.trace ++ evs ++ [ref_event.visitor_call file false] →
        (∀ e ∈ evs, e.is_refusal = false) → stops_at_refusal st.trace (false, st1) := by
      intro st1 evs h1 h2
      exact ⟨evs ++ [ref_event.visitor_call file false], by rw [h1, List.append_assoc],
        by simp, fun _ => ⟨evs, file, rfl, h2⟩⟩
    have hgo : ∀ (st1 : reference_state) (evs : List ref_event),
        st1.trace = st.trace ++ evs → (∀ e ∈ evs, e.is_refusal = false) →
        stops_at_refusal st.trace
          (directory_utils.reference_source_loop visitor include_missing rest st1) := by
      intro st1 evs h1 h2
      obtain ⟨added, ha, ht, hf⟩ := ih st1
      refine ⟨evs ++ added, by rw [ha, h1, List.append_assoc], ?_, ?_⟩
      · intro hr e he
        rcases List.mem_append.1 he with h | h
        · exact h2 e h
        · exact ht hr e h
      · intro hr
        obtain ⟨before, name, hb, hbn⟩ := hf hr
        refine ⟨evs ++ before, name, by rw [hb, List.append_assoc], ?_⟩
        intro e he
        rcases List.mem_append.1 he with h | h
        · exact h2 e h
        · exact hbn e h
    simp only [directory_utils.reference_source_loop]
    cases include_missing
    · -- existence is checked
      simp only [Bool.false_eq_true, if_false]
      by_cases hc1 : (!(st.dir.exists_file file).1.1 || !(st.dir.exists_file file).1.2) = true
      · rw [if_pos hc1]
        exact hgo _ [ref_event.exists_check file] rfl (by simp [ref_event.is_refusal])
      · rw [if_neg hc1]
        by_cases hc2 : ((((st.dir.exists_file file).2.add_ref file).2.exists_file file).1.1 &&
            (((st.dir.exists_file file).2.add_ref file).2.exists_file file).1.2) = true
        · rw [if_pos hc2]
          cases hv : visitor st.visitor_calls file
          · simp only [Bool.not_false, if_true]
            exact hstop _ [ref_event.exists_check file, ref_event.ref_add file,
              ref_event.exists_check file] (by simp) (by simp [ref_event.is_refusal])
          · simp only [Bool.not_true, Bool.false_eq_true, if_false]
            exact hgo _ [ref_event.exists_check file, ref_event.ref_add file,
              ref_event.exists_check file, ref_event.visitor_call file true] (by simp)
              (by simp [ref_event.is_refusal])
        · rw [if_neg hc2]
          exact hgo _ [ref_event.exists_check file, ref_event.ref_add file,
            ref_event.exists_check file] rfl (by simp [ref_event.is_refusal])
    · -- missing files are referenced too
      simp only [if_true]
      cases hv : visitor st.visitor_calls file
      · simp only [Bool.not_false, if_true]
        exact hstop _ [ref_event.ref_add file] (by simp) (by simp [ref_event.is_refusal])
      · simp only [Bool.not_true, Bool.false_eq_true, if_false]
        exact hgo _ [ref_event.ref_add file, ref_event.visitor_call file true] (by simp)
          (by simp [ref_event.is_refusal])

end iresearch

namespace iresearch

/-- A run that stops at the first refusal has returned false exactly when a
visitor call answered false. -/
theorem refusal_iff_false (r : Bool × reference_state) (h : stops_at_refusal [] r) :
    r.1 = false ↔ ∃ e ∈ r.2.trace, e.is_refusal = true := by
  obtain ⟨added, ha, ht, hf⟩ := h
  simp only [List.nil_append] at ha
  constructor
  · intro hr
    obtain ⟨before, name, hb, _⟩ := hf hr
    exact ⟨ref_event.visitor_call name false, by rw [ha, hb]; simp, rfl⟩
  · rintro ⟨e, he, hre⟩
    cases hr : r.1
    · rfl
    · rw [ha] at he
      have := ht hr e he
      rw [this] at hre
      cases hre

/-- Adding the attribute first does not change where a run stops. -/
theorem stops_at_refusal_from_attribute (r : Bool × reference_state)
    (h : stops_at_refusal [ref_event.attribute] r) : stops_at_refusal [] r := by
  obtain ⟨added, ha, ht, hf⟩ := h
  refine ⟨ref_event.attribute :: added, by simpa using ha, ?_, ?_⟩
  · intro hr e he
    rcases List.mem_cons.1 he with h | h
    · subst h; rfl
    · exact ht hr e h
  · intro hr
    obtain ⟨before, name, hb, hbn⟩ := hf hr
    refine ⟨ref_event.attribute :: before, name, by rw [hb]; rfl, ?_⟩
    intro e he
    rcases List.mem_cons.1 he with h | h
    · subst h; rfl
    · exact hbn e h

/-- C30: for every directory, visitor and `include_missing` flag, the overload
of `reference` for a segment meta returns the same flag and makes the same
sequence of existence checks, ref additions and visitor calls as the overload
for a source that enumerates `meta.files` in the same order, and leaves the
same refs in the directory; for a non-empty file set all their events agree
(for an empty one only the source overload adds the `index_file_refs`
attribute). Both return false exactly when some visitor call answered false,
and that call is then their last event. -/
theorem C30_reference_overloads_agree (dir : directory) (files : List String)
    (visitor : Nat → String → Bool) (include_missing : Bool) :
    (directory_utils.reference_segment dir files visitor include_missing).1 =
      (directory_utils.reference_source dir files visitor include_missing).1 ∧
    observable_events
        (directory_utils.reference_segment dir files visitor include_missing).2.trace =
      observable_events
        (directory_utils.reference_source dir files visitor include_missing).2.trace ∧
    (directory_utils.reference_segment dir files visitor include_missing).2.dir.file_refs =
      (directory_utils.reference_source dir files visitor include_missing).2.dir.file_refs ∧
    (directory_utils.reference_segment dir files visitor include_missing).2.dir.exists_calls =
      (directory_utils.reference_source dir files visitor include_missing).2.dir.exists_calls ∧
    (directory_utils.reference_segment dir files visitor include_missing).2.visitor_calls =
      (directory_utils.reference_source dir files visitor include_missing).2.visitor_calls ∧
    (files ≠ [] →
      (directory_utils.reference_segment dir files visitor include_missing).2.trace =
        (directory_utils.reference_source dir files visitor include_missing).2.trace) ∧
    stops_at_refusal [] (directory_utils.reference_segment dir files visitor include_missing) ∧
    stops_at_refusal [] (directory_utils.reference_source dir files visitor include_missing) ∧
    ((directory_utils.reference_segment dir files visitor include_missing).1 = false ↔
      ∃ e ∈ (directory_utils.reference_segment dir files visitor include_missing).2.trace,
        e.is_refusal = true) ∧
    ((directory_utils.reference_source dir files visitor include_missing).1 = false ↔
      ∃ e ∈ (directory_utils.reference_source dir files visitor include_missing).2.trace,
        e.is_refusal = true) := by
  have hsrc : stops_at_refusal []
      (directory_utils.reference_source dir files visitor include_missing) :=
    stops_at_refusal_from_attribute _
      (reference_loop_refusal visitor include_missing files
        { dir := dir, visitor_calls := 0, trace := [ref_event.attribute] })
  cases files with
  | nil =>
    have hseg : stops_at_refusal []
        (directory_utils.reference_segment dir [] visitor include_missing) :=
      ⟨[], by simp [directory_utils.reference_segment],
        by simp, by simp [directory_utils.reference_segment]⟩
    refine ⟨?_, ?_, ?_, ?_, ?_, ?_, hseg, hsrc, refusal_iff_false _ hseg,
      refusal_iff_false _ hsrc⟩ <;>
      simp [directory_utils.reference_segment, directory_utils.reference_source,
        directory_utils.reference_source_loop, observable_events]
  | cons file rest =>
    have heq : directory_utils.reference_segment dir (file :: rest) visitor include_missing =
        directory_utils.reference_source dir (file :: rest) visitor include_missing := by
      simp only [directory_utils.reference_segment, directory_utils.reference_source,
        List.isEmpty_cons, Bool.false_eq_true, if_false]
      exact reference_loops_agree visitor include_missing (file :: rest) _
    rw [heq]
    exact ⟨rfl, rfl, rfl, rfl, rfl, fun _ => rfl, hsrc, hsrc, refusal_iff_false _ hsrc,
      refusal_iff_false _ hsrc⟩

/-- C30, a concrete run: three files that exist, a visitor that refuses the ref
to the second: both overloads return false after the same eight events, the
last of which is the refused visitor call; the third file is not looked at. -/
theorem C30_reference_overloads_agree_witness :
    (directory_utils.reference_segment sample_directory_steady ["_1.sm", "_1.doc", "_1.tm"]
      sample_visitor false).1 = false ∧
    (directory_utils.reference_source sample_directory_steady ["_1.sm", "_1.doc", "_1.tm"]
      sample_visitor false).1 = false ∧
    observable_events (directory_utils.reference_segment sample_directory_steady
      ["_1.sm", "_1.doc", "_1.tm"] sample_visitor false).2.trace =
      [ref_event.exists_check "_1.sm", ref_event.ref_add "_1.sm",
       ref_event.exists_check "_1.sm", ref_event.visitor_call "_1.sm" true,
       ref_event.exists_check "_1.doc", ref_event.ref_add "_1.doc",
       ref_event.exists_check "_1.doc", ref_event.visitor_call "_1.doc" false] ∧
    observable_events (directory_utils.reference_segment sample_directory_steady
      ["_1.sm", "_1.doc", "_1.tm"] sample_visitor false).2.trace =
    observable_events (directory_utils.reference_source sample_directory_steady
      ["_1.sm", "_1.doc", "_1.tm"] sample_visitor false).2.trace :=
  ⟨by decide, by decide, by decide,
   (C30_reference_overloads_agree sample_directory_steady ["_1.sm", "_1.doc", "_1.tm"]
     sample_visitor false).2.1⟩

end iresearch

namespace iresearch

/-! ### C28: `fs_index_input::checksum` -/

/-- However `checksum` is left, by its return or by the `io_error` of a read, the
position of the stream is what it was before the call. -/
theorem checksum_restores_position (io : file_io) (i : fs_index_input) (offset : Nat)
    (buf : List Nat) (fuel : Nat) (p : Nat)
    (h : (i.checksum io offset buf fuel).position = some p) : p = i.pos_ := by
  revert h
  unfold fs_index_input.checksum
  simp only
  split <;> simp [checksum_exit.position]
  all_goals
    intro h
    exact h.symm

/-- A complete read at the position of the stream. -/
theorem read_internal_complete (io : file_io) (content : List Nat)
    (hread : ∀ k pos len, pos + len ≤ content.length →
      io.fread k pos len = (content.drop pos).take len)
    (hseek : ∀ k, io.fseek_fails k = false) (hsize : content.length < SIZE_MOD)
    (i : fs_index_input) (calls : io_calls) (b : List Nat) (len : Nat)
    (hlen : i.pos_ + len ≤ content.length) :
    ∃ r, i.read_internal io calls b len = Except.ok r ∧ r.read = len ∧
      r.buf.take len = (content.drop i.pos_).take len ∧ r.input.pos_ = i.pos_ + len := by
  have hdata : ((content.drop i.pos_).take len).length = len := by
    rw [List.length_take, List.length_drop]; omega
  have hmod : (i.pos_ + len) % SIZE_MOD = i.pos_ + len := Nat.mod_eq_of_lt (by omega)
  have htake : (List.take len (List.drop i.pos_ content)).take len =
      List.take len (List.drop i.pos_ content) := by
    rw [List.take_take, Nat.min_self]
  by_cases hs : i.handle_.pos = i.pos_
  · have heq : i.read_internal io calls b len = Except.ok
        { read := len, buf := (content.drop i.pos_).take len ++ b.drop len,
          input := { pos_ := i.pos_ + len, handle_ := { i.handle_ with pos := i.pos_ + len } },
          calls := { calls with freads := calls.freads + 1 } } := by
      simp [fs_index_input.read_internal, hs, hread _ _ _ hlen, htake, hdata, hmod]
    exact ⟨_, heq, rfl, by simp [List.take_append_of_le_length, hdata], rfl⟩
  · have heq : i.read_internal io calls b len = Except.ok
        { read := len, buf := (content.drop i.pos_).take len ++ b.drop len,
          input := { pos_ := i.pos_ + len, handle_ := { i.handle_ with pos := i.pos_ + len } },
          calls := { fseeks := calls.fseeks + 1, freads := calls.freads + 1 } } := by
      simp [fs_index_input.read_internal, hs, hseek, hread _ _ _ hlen, htake, hdata, hmod]
    exact ⟨_, heq, rfl, by simp [List.take_append_of_le_length, hdata], rfl⟩

/-- Consecutive pieces of a list make up the longer piece. -/
theorem take_drop_pieces (content : List Nat) (pos a b : Nat) :
    (content.drop pos).take a ++ (content.drop (pos + a)).take b =
      (content.drop pos).take (a + b) := by
  rw [List.take_add, List.drop_drop]

/-- A loop of `checksum` that starts at or beyond its end reads nothing. -/
theorem checksum_loop_done (io : file_io) (end_ fuel : Nat) (st : checksum_state)
    (hnot : ¬ st.pos < end_) :
    fs_index_input.checksum_loop io end_ fuel st = Except.ok (some st, st.input) := by
  cases fuel <;> simp [fs_index_input.checksum_loop, hnot]

/-- With complete reads the loop of `checksum` ends within as many iterations as
bytes are left and has fed exactly those bytes to the CRC. -/
theorem checksum_loop_complete (io : file_io) (content : List Nat)
    (hread : ∀ k pos len, pos + len ≤ content.length →
      io.fread k pos len = (content.drop pos).take len)
    (hseek : ∀ k, io.fseek_fails k = false) (hsize : content.length < SIZE_MOD)
    (end_ : Nat) (hend : end_ ≤ content.length) (fuel : Nat) :
    ∀ st : checksum_state, st.input.pos_ = st.pos → st.pos ≤ end_ → end_ - st.pos ≤ fuel →
      ∃ st1 e, fs_index_input.checksum_loop io end_ fuel st = Except.ok (some st1, e) ∧
        st1.crc = crc32c_process st.crc ((content.drop st.pos).take (end_ - st.pos)) := by
  induction fuel with
  | zero =>
    intro st _ hle hfuel
    have hnot : ¬ st.pos < end_ := by omega
    have hz : end_ - st.pos = 0 := by omega
    exact ⟨st, st.input, by simp [fs_index_input.checksum_loop, hnot],
      by simp [hz, crc32c_process]⟩
  | succ fuel ih =>
    intro st hpos hle hfuel
    by_cases hlt : st.pos < end_
    · have ht2 : min (end_ - st.pos) INPUT_BUF_SIZE ≤ end_ - st.pos := Nat.min_le_left _ _
      have hone : 1 ≤ min (end_ - st.pos) INPUT_BUF_SIZE := by
        simp only [INPUT_BUF_SIZE]; omega
      have hto : st.input.pos_ + min (end_ - st.pos) INPUT_BUF_SIZE ≤ content.length := by
        rw [hpos]; omega
      obtain ⟨r, hr, hrd, hbuf, hnp⟩ := read_internal_complete io content hread hseek hsize
        st.input st.calls st.buf (min (end_ - st.pos) INPUT_BUF_SIZE) hto
      have hmod : (st.pos + min (end_ - st.pos) INPUT_BUF_SIZE) % SIZE_MOD =
          st.pos + min (end_ - st.pos) INPUT_BUF_SIZE := Nat.mod_eq_of_lt (by omega)
      obtain ⟨st1, e, hloop, hcrc⟩ := ih
        { pos := (st.pos + r.read) % SIZE_MOD, input := r.input, calls := r.calls,
          buf := r.buf, crc := crc32c_process st.crc
            (r.buf.take (min (end_ - st.pos) INPUT_BUF_SIZE)) }
        (by simp only [hrd, hmod, hnp, hpos])
        (by simp only [hrd, hmod]; omega)
        (by simp only [hrd, hmod]; omega)
      refine ⟨st1, e, ?_, ?_⟩
      · simp only [fs_index_input.checksum_loop, hlt, if_true, hr]
        exact hloop
      · rw [hcrc]
        simp only [hrd, hmod, hbuf, hpos, crc32c_process_append, take_drop_pieces]
        congr 2
        omega
    · have hz : end_ - st.pos = 0 := by omega
      exact ⟨st, st.input, by simp [fs_index_input.checksum_loop, hlt],
        by simp [hz, crc32c_process]⟩

/-- C28 (as amended): for every offset, whenever `checksum(offset)` is left, by
its return or by the `io_error` of a failing read, the position of the stream
is what it was before the call; and when `pos + offset` does not exceed the
range of `size_t` and every read returns the bytes requested (no seek
failing), the call returns, within as many loop iterations as there are bytes
in the range, the CRC-32C of exactly the bytes in
`[pos, min(pos + offset, length))`, wherever the stream is positioned. -/
theorem C28_checksum_of_range (io : file_io) (content : List Nat) (i : fs_index_input)
    (offset : Nat) (buf : List Nat) (fuel : Nat)
    (hread : ∀ k pos len, pos + len ≤ content.length →
      io.fread k pos len = (content.drop pos).take len)
    (hseek : ∀ k, io.fseek_fails k = false)
    (hlength : i.length = content.length) (hsize : content.length < SIZE_MOD)
    (hfit : i.pos_ + offset < SIZE_MOD)
    (hfuel : min (i.pos_ + offset) i.length - i.pos_ ≤ fuel) :
    (∃ e, i.checksum io offset buf fuel =
        checksum_exit.returned
          (crc32c ((content.drop i.pos_).take (min (i.pos_ + offset) i.length - i.pos_))) e ∧
      e.pos_ = i.pos_) ∧
    (∀ (io1 : file_io) (offset1 : Nat) (buf1 : List Nat) (fuel1 : Nat) (p : Nat),
      (i.checksum io1 offset1 buf1 fuel1).position = some p → p = i.pos_) := by
  refine ⟨?_, fun io1 offset1 buf1 fuel1 p h =>
    checksum_restores_position io1 i offset1 buf1 fuel1 p h⟩
  unfold fs_index_input.length at hlength hfuel
  have hmod : (i.pos_ + offset) % SIZE_MOD = i.pos_ + offset := Nat.mod_eq_of_lt hfit
  by_cases hpos : i.pos_ ≤ i.handle_.size
  · obtain ⟨st1, e, hloop, hcrc⟩ := checksum_loop_complete io content hread hseek hsize
      (min (i.pos_ + offset) i.handle_.size) (by omega) fuel
      { pos := i.pos_, input := i, calls := { fseeks := 0, freads := 0 }, buf := buf,
        crc := crc32c_init } rfl (by simp only; omega) (by simpa using hfuel)
    refine ⟨{ e with pos_ := i.pos_ }, ?_, rfl⟩
    simp only [fs_index_input.checksum, fs_index_input.length, hmod, hloop, hcrc, crc32c]
  · have hnot : ¬ i.pos_ < min (i.pos_ + offset) i.handle_.size := by omega
    have hz : min (i.pos_ + offset) i.handle_.size - i.pos_ = 0 := by omega
    have hloop := checksum_loop_done io (min (i.pos_ + offset) i.handle_.size) fuel
      { pos := i.pos_, input := i, calls := { fseeks := 0, freads := 0 }, buf := buf,
        crc := crc32c_init } hnot
    refine ⟨{ i with pos_ := i.pos_ }, ?_, rfl⟩
    simp only [fs_index_input.checksum, fs_index_input.length, hmod, hloop, hz,
      List.take_zero, crc32c, crc32c_process, List.foldl_nil]

set_option maxRecDepth 100000 in
/-- C28, concrete runs on a file of the bytes 1, 2, 3 with the stream at
position 1: `checksum(5)` returns the CRC-32C of the bytes 2, 3 and leaves the
position at 1; with a failing seek it is left by `io_error`, the position
still 1. -/
theorem C28_checksum_of_range_witness :
    (∃ e, sample_input.checksum sample_file_io 5 [] 2 =
        checksum_exit.returned (crc32c [2, 3]) e ∧ e.pos_ = 1) ∧
    sample_input.checksum sample_file_io_seek_fails 5 [] 2 =
      checksum_exit.io_error sample_input := by
  have h := C28_checksum_of_range sample_file_io [1, 2, 3] sample_input 5 [] 2
    (fun _ _ _ _ => rfl) (fun _ => rfl) rfl (by decide) (by decide) (by decide)
  exact ⟨h.1, by decide⟩

set_option maxRecDepth 100000 in
/-- C28 as stated fails: on a file of the bytes 1, 2, 3 with the stream at
position 1, `checksum(2^64 - 1)` computes `pos + offset` as 0 in `size_t`, reads
nothing and returns the CRC-32C of no bytes, which is 0, where the bytes in
`[1, min(1 + offset, 3))` are 2, 3 with another CRC-32C. -/
theorem C28_counterexample :
    sample_input.checksum sample_file_io 18446744073709551615 [] 2 =
      checksum_exit.returned 0 sample_input ∧
    crc32c (([1, 2, 3] : List Nat).drop 1 |>.take (min (1 + 18446744073709551615) 3 - 1)) ≠ 0 ∧
    sample_input.checksum sample_file_io 18446744073709551615 [] 2 ≠
      checksum_exit.returned
        (crc32c (([1, 2, 3] : List Nat).drop 1 |>.take (min (1 + 18446744073709551615) 3 - 1)))
        sample_input := by
  refine ⟨by decide, by decide, by decide⟩

end iresearch

namespace iresearch

/-! ### C24: decoding UTF-8 -/

/-- A code point is encoded in one to four bytes. -/
theorem utf32_to_utf8_length (cp : Nat) :
    1 ≤ (utf8_utils.utf32_to_utf8 cp).length ∧ (utf8_utils.utf32_to_utf8 cp).length ≤ 4 := by
  unfold utf8_utils.utf32_to_utf8
  split_ifs <;> simp

/-- One call of `next` on the encoding of a code point returns the code point
and leaves the cursor right after the encoding. -/
theorem next_encoded (cp : Nat) (rest : List Nat) (hcp : cp ≤ utf8_utils.MAX_CODE_POINT) :
    utf8_utils.next (utf8_utils.utf32_to_utf8 cp ++ rest) = some (cp, rest) := by
  unfold utf8_utils.MAX_CODE_POINT at hcp
  unfold utf8_utils.utf32_to_utf8
  split_ifs with h1 h2 h3
  · have a1 : ¬ cp / 32 = 6 := by omega
    have a2 : ¬ cp / 16 = 14 := by omega
    have a3 : ¬ cp / 8 = 30 := by omega
    simp [utf8_utils.next, a1, a2, a3]
  · have a1 : (0xC0 + cp / 64) / 32 = 6 := by omega
    have a2 : (0xC0 + cp / 64) % 32 * 64 + (0x80 + cp % 64) % 64 = cp := by omega
    simp only [List.cons_append, List.nil_append, utf8_utils.next, a1, if_true, a2]
  · have a1 : ¬ (0xE0 + cp / 4096) / 32 = 6 := by omega
    have a2 : (0xE0 + cp / 4096) / 16 = 14 := by omega
    have a3 : (0xE0 + cp / 4096) % 16 * 4096 + (0x80 + cp / 64 % 64) % 64 * 64 +
        (0x80 + cp % 64) % 64 = cp := by omega
    simp only [List.cons_append, List.nil_append, utf8_utils.next, a1, if_false, a2, if_true,
      a3]
  · have a1 : ¬ (0xF0 + cp / 262144) / 32 = 6 := by omega
    have a2 : ¬ (0xF0 + cp / 262144) / 16 = 14 := by omega
    have a3 : (0xF0 + cp / 262144) / 8 = 30 := by omega
    have a4 : (0xF0 + cp / 262144) % 8 * 262144 + (0x80 + cp / 4096 % 64) % 64 * 4096 +
        (0x80 + cp / 64 % 64) % 64 * 64 + (0x80 + cp % 64) % 64 = cp := by omega
    simp only [List.cons_append, List.nil_append, utf8_utils.next, a1, if_false, a2, a3,
      if_true, a4]

/-- One call of `next_checked` on the encoding of a code point accepts it. -/
theorem next_checked_encoded (cp : Nat) (rest : List Nat)
    (hcp : cp ≤ utf8_utils.MAX_CODE_POINT) :
    utf8_utils.next_checked (utf8_utils.utf32_to_utf8 cp ++ rest) = some (cp, rest) := by
  unfold utf8_utils.MAX_CODE_POINT at hcp
  unfold utf8_utils.utf32_to_utf8
  split_ifs with h1 h2 h3
  · simp [utf8_utils.next_checked, h1]
  · have a0 : ¬ (0xC0 + cp / 64) < 0x80 := by omega
    have a1 : (0xC0 + cp / 64) / 32 = 6 := by omega
    have a2 : (0xC0 + cp / 64) % 32 * 64 + (0x80 + cp % 64) % 64 = cp := by omega
    have c1 : (0x80 + cp % 64) / 64 = 2 := by omega
    simp only [List.cons_append, List.nil_append, utf8_utils.next_checked, a0, if_false, a1,
      if_true, c1, a2]
  · have a0 : ¬ (0xE0 + cp / 4096) < 0x80 := by omega
    have a1 : ¬ (0xE0 + cp / 4096) / 32 = 6 := by omega
    have a2 : (0xE0 + cp / 4096) / 16 = 14 := by omega
    have a3 : (0xE0 + cp / 4096) % 16 * 4096 + (0x80 + cp / 64 % 64) % 64 * 64 +
        (0x80 + cp % 64) % 64 = cp := by omega
    have c1 : (0x80 + cp / 64 % 64) / 64 = 2 := by omega
    have c2 : (0x80 + cp % 64) / 64 = 2 := by omega
    simp only [List.cons_append, List.nil_append, utf8_utils.next_checked, a0, a1, if_false,
      a2, if_true, c1, c2, and_self, a3]
  · have a0 : ¬ (0xF0 + cp / 262144) < 0x80 := by omega
    have a1 : ¬ (0xF0 + cp / 262144) / 32 = 6 := by omega
    have a2 : ¬ (0xF0 + cp / 262144) / 16 = 14 := by omega
    have a3 : (0xF0 + cp / 262144) / 8 = 30 := by omega
    have a4 : (0xF0 + cp / 262144) % 8 * 262144 + (0x80 + cp / 4096 % 64) % 64 * 4096 +
        (0x80 + cp / 64 % 64) % 64 * 64 + (0x80 + cp % 64) % 64 = cp := by omega
    have c1 : (0x80 + cp / 4096 % 64) / 64 = 2 := by omega
    have c2 : (0x80 + cp / 64 % 64) / 64 = 2 := by omega
    have c3 : (0x80 + cp % 64) / 64 = 2 := by omega
    simp only [List.cons_append, List.nil_append, utf8_utils.next_checked, a0, a1, a2,
      if_false, a3, if_true, c1, c2, c3, and_self, a4]

/-- The encoding of a code point starts with a byte. -/
theorem utf32_to_utf8_cons (cp : Nat) :
    ∃ b tail, utf8_utils.utf32_to_utf8 cp = b :: tail := by
  unfold utf8_utils.utf32_to_utf8
  split_ifs <;> exact ⟨_, _, rfl⟩

/-- Decoding the encoding of code points gives the code points back, with any
allowance of at least as many steps as bytes. -/
theorem utf8_to_utf32_loop_encode (cps : List Nat) :
    ∀ fuel, (∀ cp ∈ cps, cp ≤ utf8_utils.MAX_CODE_POINT) →
      (utf8_utils.encode cps).length ≤ fuel →
      utf8_utils.utf8_to_utf32_loop fuel (utf8_utils.encode cps) = cps ∧
      utf8_utils.utf8_to_utf32_checked_loop fuel (utf8_utils.encode cps) = (true, cps) := by
  induction cps with
  | nil =>
    intro fuel _ _
    cases fuel <;>
      simp [utf8_utils.encode, utf8_utils.utf8_to_utf32_loop,
        utf8_utils.utf8_to_utf32_checked_loop]
  | cons cp rest ih =>
    intro fuel hall hfuel
    have hcp : cp ≤ utf8_utils.MAX_CODE_POINT := hall cp (List.mem_cons_self _ _)
    have hlen := (utf32_to_utf8_length cp).1
    obtain ⟨b, tail, hb⟩ := utf32_to_utf8_cons cp
    simp only [utf8_utils.encode, List.length_append] at hfuel
    obtain ⟨f, rfl⟩ : ∃ f, fuel = f + 1 := ⟨fuel - 1, by omega⟩
    have hrest := ih f (fun c hc => hall c (List.mem_cons_of_mem _ hc)) (by omega)
    have hn := next_encoded cp (utf8_utils.encode rest) hcp
    have hnc := next_checked_encoded cp (utf8_utils.encode rest) hcp
    simp only [utf8_utils.encode]
    rw [hb] at hn hnc ⊢
    simp only [List.cons_append] at hn hnc ⊢
    simp [utf8_utils.utf8_to_utf32_loop, utf8_utils.utf8_to_utf32_checked_loop, hn, hnc,
      hrest.1, hrest.2]

/-- C24: for every well-formed UTF-8 byte string, the encoding in one to four
bytes each of code points up to `MAX_CODE_POINT`, `utf8_to_utf32` outputs
exactly these code points, `utf8_to_utf32_checked` returns true with the same
output, and a call of `next` at the start of an encoded code point returns
that code point and advances the cursor by exactly its encoded length. -/
theorem C24_utf8_decoding (cps : List Nat)
    (hvalid : ∀ cp ∈ cps, cp ≤ utf8_utils.MAX_CODE_POINT) :
    utf8_utils.utf8_to_utf32 (utf8_utils.encode cps) = cps ∧
    utf8_utils.utf8_to_utf32_checked (utf8_utils.encode cps) = (true, cps) ∧
    (∀ cp ∈ cps, ∀ rest,
      utf8_utils.next (utf8_utils.utf32_to_utf8 cp ++ rest) = some (cp, rest) ∧
      (utf8_utils.utf32_to_utf8 cp ++ rest).length - rest.length =
        (utf8_utils.utf32_to_utf8 cp).length ∧
      1 ≤ (utf8_utils.utf32_to_utf8 cp).length ∧ (utf8_utils.utf32_to_utf8 cp).length ≤ 4) := by
  have h := utf8_to_utf32_loop_encode cps (utf8_utils.encode cps).length hvalid (le_refl _)
  refine ⟨h.1, h.2, ?_⟩
  intro cp hcp rest
  exact ⟨next_encoded cp rest (hvalid cp hcp), by simp, utf32_to_utf8_length cp⟩

/-- C24 on the strings of the test: `abcd`, the six two-byte letters, the two
three-byte signs and the two four-byte faces decode to the expected code
points, and the four code points of the encoding test have the expected
bytes. -/
theorem C24_utf8_decoding_witness :
    utf8_utils.utf8_to_utf32 [0x61, 0x62, 0x63, 0x64] = [0x61, 0x62, 0x63, 0x64] ∧
    utf8_utils.utf8_to_utf32
      [0xD0, 0xBF, 0xD1, 0x80, 0xD0, 0xB8, 0xD0, 0xB2, 0xD0, 0xB5, 0xD1, 0x82] =
      [0x043F, 0x0440, 0x0438, 0x0432, 0x0435, 0x0442] ∧
    utf8_utils.utf8_to_utf32 [0xE2, 0x9E, 0x96, 0xE2, 0x9D, 0xA4] = [0x2796, 0x2764] ∧
    utf8_utils.utf8_to_utf32 [0xF0, 0x9F, 0x98, 0x81, 0xF0, 0x9F, 0x98, 0x82] =
      [0x1F601, 0x1F602] ∧
    utf8_utils.utf8_to_utf32_checked [0xF0, 0x9F, 0x98, 0x81, 0xF0, 0x9F, 0x98, 0x82] =
      (true, [0x1F601, 0x1F602]) ∧
    utf8_utils.utf32_to_utf8 0x46 = [0x46] ∧
    utf8_utils.utf32_to_utf8 0xA9 = [0xC2, 0xA9] ∧
    utf8_utils.utf32_to_utf8 0x08F1 = [0xE0, 0xA3, 0xB1] ∧
    utf8_utils.utf32_to_utf8 0x1F996 = [0xF0, 0x9F, 0xA6, 0x96] ∧
    utf8_utils.utf8_to_utf32 (utf8_utils.encode [0x1F601, 0x2796, 0x043F, 0x61]) =
      [0x1F601, 0x2796, 0x043F, 0x61] :=
  ⟨by decide, by decide, by decide, by decide, by decide, by decide, by decide, by decide,
   by decide,
   (C24_utf8_decoding [0x1F601, 0x2796, 0x043F, 0x61] (by decide)).1⟩

end iresearch
